import Mathlib

/-!
# MS56XX barometric sensor driver: a shallow embedding of `src/MS56XX.cpp`

The driver object and the Arduino runtime it talks to (the `Wire` buses and
the clock) are explicit state.  A bus is modelled as a trace of the calls the
driver made, together with three response functions that give the value of
`endTransmission`, `requestFrom` and `read` as a function of the trace so
far: quantifying over the response functions quantifies over every
(deterministic) bus behaviour.

* `float` / `double` values are rationals (`ℚ`); every operation takes the
  rounding of its result from an `Arith`, which is either none (exact rational
  arithmetic) or IEEE 754 binary32 / binary64 rounding to nearest;
* unsigned machine integers are `Nat` with an explicit `% 2^w`;
* `int` values are `Int`.
-/

/-! ## The Arduino runtime -/

/-- One call on a `TwoWire` object; `wire` identifies the object. -/
inductive BusEvent where
  | beginTransmission (wire address : Nat)
  | write (wire byte : Nat)
  | endTransmission (wire : Nat)
  | requestFrom (wire address length : Nat)
  | read (wire : Nat)
  deriving DecidableEq

/-- The runtime: every bus call made so far (oldest first), the response of
the buses to a call given the trace that ends with that call, and the time in
microseconds since start-up. -/
structure Board where
  trace : List BusEvent
  endTransmissionResult : List BusEvent → Int
  requestFromResult : List BusEvent → Int
  readResult : List BusEvent → Int
  clock : Nat

/-- Record one bus call. -/
def Board.emit (ev : BusEvent) (hw : Board) : Board :=
  { hw with trace := hw.trace ++ [ev] }

/-- `wire->beginTransmission(address)`. -/
def TwoWire.beginTransmission (wire address : Nat) (hw : Board) : Board :=
  hw.emit (.beginTransmission wire address)

/-- `wire->write(byte)`; the driver ignores the returned count. -/
def TwoWire.write (wire byte : Nat) (hw : Board) : Board :=
  hw.emit (.write wire byte)

/-- `wire->endTransmission()`: the completion code of the transaction. -/
def TwoWire.endTransmission (wire : Nat) (hw : Board) : Int × Board :=
  let hw1 := hw.emit (.endTransmission wire)
  (hw1.endTransmissionResult hw1.trace, hw1)

/-- `wire->requestFrom(address, length)`: the number of bytes available. -/
def TwoWire.requestFrom (wire address length : Nat) (hw : Board) : Int × Board :=
  let hw1 := hw.emit (.requestFrom wire address length)
  (hw1.requestFromResult hw1.trace, hw1)

/-- `wire->read()`: the next byte as an `int` (the Arduino core gives -1 when
there is none). -/
def TwoWire.read (wire : Nat) (hw : Board) : Int × Board :=
  let hw1 := hw.emit (.read wire)
  (hw1.readResult hw1.trace, hw1)

/-- `micros()`: a `uint32_t`. -/
def micros (hw : Board) : Nat := hw.clock % 4294967296

/-- `millis()`: a `uint32_t`. -/
def millis (hw : Board) : Nat := hw.clock / 1000 % 4294967296

/-- `delayMicroseconds(us)`: in the model exactly `us` microseconds pass, and
time passes nowhere else than in `delay` and `delayMicroseconds`. -/
def delayMicroseconds (us : Nat) (hw : Board) : Board :=
  { hw with clock := hw.clock + us }

/-- `delay(ms)`. -/
def delay (ms : Nat) (hw : Board) : Board :=
  { hw with clock := hw.clock + 1000 * ms }

/-- `yield()`: hands control to the scheduler; no effect on the model. -/
def yield (hw : Board) : Board := hw

/-! ## Floating point -/

/-- Rounding to the nearest integer, a tie going to the even one. -/
def roundHalfEven (q : ℚ) : Int :=
  if q - ⌊q⌋ < 1 / 2 then ⌊q⌋
  else if 1 / 2 < q - ⌊q⌋ then ⌊q⌋ + 1
  else if ⌊q⌋ % 2 = 0 then ⌊q⌋ else ⌊q⌋ + 1

/-- The exponent of the unit in the last place at `x`, in the binary format
with `p` significand bits and least normal exponent `emin` (below `2 ^ emin`
the numbers are subnormal and the unit stays `2 ^ (emin - (p - 1))`). -/
def ulpExponent (p : Nat) (emin : Int) (x : ℚ) : Int :=
  max (Int.log 2 |x| - ((p : Int) - 1)) (emin - ((p : Int) - 1))

/-- Rounding to the nearest number of the binary format, ties to even (the
IEEE 754 default).  The format has no largest number in the model: overflow to
infinity is not modelled. -/
def roundBinary (p : Nat) (emin : Int) (x : ℚ) : ℚ :=
  (roundHalfEven (x / (2 : ℚ) ^ ulpExponent p emin x) : ℚ) * (2 : ℚ) ^ ulpExponent p emin x

/-- Rounding to IEEE 754 binary32, the `float` of the Arduino targets. -/
def binary32 (x : ℚ) : ℚ := roundBinary 24 (-126) x

/-- Rounding to IEEE 754 binary64, the `double` of the 32-bit Arduino
targets. -/
def binary64 (x : ℚ) : ℚ := roundBinary 53 (-1022) x

/-- How the result of a floating-point operation or conversion is rounded:
`single` for a result of type `float`, `double` for one of type `double`.
Each operation is rounded once, to the type C++ gives it (no excess precision,
no fused multiply-add).  Integer constants and the 16-bit PROM words are small
integers, which every format holds exactly. -/
structure Arith where
  single : ℚ → ℚ
  double : ℚ → ℚ

/-- Exact rational arithmetic: nothing is rounded. -/
def Arith.rational : Arith := { single := id, double := id }

/-- IEEE 754 arithmetic: `float` is binary32, `double` is binary64. -/
def Arith.ieee754 : Arith := { single := binary32, double := binary64 }

/-! ## The driver's data (MS56XX.h) -/

/-- `struct MS56XX_Config`; `wire` is the identity of the `TwoWire` object the
pointer refers to, the three enums are kept as their integer values. -/
structure MS56XX_Config where
  wire : Nat
  i2c_address : Nat
  ms56xx_type : Nat
  oversampling : Nat
  deriving DecidableEq

/-- `struct MS56XX_RunTimeVariables`. -/
structure MS56XX_RunTimeVariables where
  result : Int
  lastRead : Nat
  deriving DecidableEq

/-- `struct MS56XX_Data`; `pressure` is the `int32_t`. -/
structure MS56XX_Data where
  temperature : ℚ
  pressure : Int
  altitude : ℚ
  deriving DecidableEq

/-- The data members of `class MS56XX`; `C` is the `float C[7]` PROM buffer
(only indices 0..6 are ever used). -/
structure MS56XX where
  runTimeVariables : MS56XX_RunTimeVariables
  C : Nat → ℚ
  _config : MS56XX_Config

/-- A driver object together with the runtime it executes on. -/
structure Sketch where
  dev : MS56XX
  hw : Board

namespace MS56XX

/-- Command byte: read the ADC result (datasheet page 10). -/
def MS56XX_CMD_READ_ADC : Nat := 0x00

/-- Command byte: read PROM word 0; word `i` is at `0xA0 + 2 * i`. -/
def MS56XX_CMD_READ_PROM : Nat := 0xA0

/-- Command byte: reset the sensor. -/
def MS56XX_CMD_RESET : Nat := 0x1E

/-- Command byte: start a pressure conversion at the lowest oversampling. -/
def MS56XX_CMD_CONVERT_D1 : Nat := 0x40

/-- Command byte: start a temperature conversion at the lowest oversampling. -/
def MS56XX_CMD_CONVERT_D2 : Nat := 0x50

/-! ## MS56XX.cpp -/

/-- `int MS56XX::command(const uint8_t command)`: one complete write
transaction; the argument is converted to `uint8_t`. -/
def command (command : Nat) (s : Sketch) : Int × Sketch :=
  let command := command % 256
  let hw := yield s.hw
  let hw := TwoWire.beginTransmission s.dev._config.wire s.dev._config.i2c_address hw
  let hw := TwoWire.write s.dev._config.wire command hw
  let (r, hw) := TwoWire.endTransmission s.dev._config.wire hw
  let dev := { s.dev with runTimeVariables := { s.dev.runTimeVariables with result := r } }
  (r, { dev := dev, hw := hw })

/-- The settle-time table `del` of `convert`. -/
def del : List Nat := [600, 1200, 2300, 4600, 9100]

/-- The `while (micros() - start < waitTime)` loop of `convert`; `start` is a
`uint32_t`, `waitTime` a `uint16_t`, the subtraction is `uint32_t`
subtraction. -/
def waitLoop (start waitTime : Nat) (hw : Board) : Board :=
  if (micros hw + 4294967296 - start % 4294967296) % 4294967296 < waitTime % 65536 then
    waitLoop start waitTime (delayMicroseconds 10 (yield hw))
  else hw
termination_by waitTime % 65536 - (micros hw + 4294967296 - start % 4294967296) % 4294967296
decreasing_by
  simp only [micros, delayMicroseconds, yield] at *
  omega

/-- `void MS56XX::convert(const uint8_t addr, uint8_t bits)`. -/
def convert (addr bits : Nat) (s : Sketch) : Sketch :=
  let addr := addr % 256
  let bits := bits % 256
  let index := bits
  let index := if index < 8 then 8 else if index > 12 then 12 else index
  let index := (index - 8) % 256
  let offset := index * 2 % 256
  let s := (command (addr + offset) s).2
  let waitTime := del.getD index 0
  let start := micros s.hw
  { s with hw := waitLoop start waitTime s.hw }

/-- `uint16_t MS56XX::readProm(uint8_t reg)`. -/
def readProm (reg : Nat) (s : Sketch) : Nat × Sketch :=
  let reg := reg % 256
  let promCRCRegister := 7
  if reg > promCRCRegister then (0, s)
  else
    let offset := reg * 2 % 256
    let s := (command (MS56XX_CMD_READ_PROM + offset) s).2
    if s.dev.runTimeVariables.result = 0 then
      let length := 2
      let (bytes, hw) :=
        TwoWire.requestFrom s.dev._config.wire (s.dev._config.i2c_address % 256) length s.hw
      if bytes ≥ (length : Int) then
        let (b, hw) := TwoWire.read s.dev._config.wire hw
        let value := (b * 256 % 65536).toNat
        let (b, hw) := TwoWire.read s.dev._config.wire hw
        let value := (((value : Int) + b) % 65536).toNat
        (value, { s with hw := hw })
      else (0, { s with hw := hw })
    else (0, s)

/-- `uint32_t MS56XX::readADC()`; `unsigned long` is 32 bits wide, as on the
Arduino targets. -/
def readADC (s : Sketch) : Nat × Sketch :=
  let s := (command MS56XX_CMD_READ_ADC s).2
  if s.dev.runTimeVariables.result = 0 then
    let length := 3
    let (bytes, hw) :=
      TwoWire.requestFrom s.dev._config.wire (s.dev._config.i2c_address % 256) length s.hw
    if bytes ≥ (length : Int) then
      let (b, hw) := TwoWire.read s.dev._config.wire hw
      let value := (b * 65536 % 4294967296).toNat
      let (b, hw) := TwoWire.read s.dev._config.wire hw
      let value := (((value : Int) + b * 256) % 4294967296).toNat
      let (b, hw) := TwoWire.read s.dev._config.wire hw
      let value := (((value : Int) + b) % 4294967296).toNat
      (value, { s with hw := hw })
    else (0, { s with hw := hw })
  else (0, s)

/-- Assignment `C[i] = v`. -/
def setC (i : Nat) (v : ℚ) (s : Sketch) : Sketch :=
  { s with dev := { s.dev with C := Function.update s.dev.C i v } }

/-- `void MS56XX::initConstants(uint8_t altered_mode)`: the constants with a
decimal point are `double` literals converted to `float`. -/
def initConstants (A : Arith) (altered_mode : Nat) (s : Sketch) : Sketch :=
  let altered_mode := altered_mode % 256
  let s := setC 0 1 s
  let s := setC 1 32768 s
  let s := setC 2 65536 s
  let s := setC 3 (A.single (A.double 3.90625E-3)) s
  let s := setC 4 (A.single (A.double 7.8125E-3)) s
  let s := setC 5 256 s
  let s := setC 6 (A.single (A.double 1.1920928955E-7)) s
  if altered_mode = 1 then
    let s := setC 1 65536 s
    let s := setC 2 131072 s
    let s := setC 3 (A.single (A.double 7.8125E-3)) s
    let s := setC 4 (A.single (A.double 1.5625e-2)) s
    s
  else s

/-- The body of the `for (uint8_t reg = 0; reg < 7; reg++)` loop of `reset`,
on the pair (`PROM_OK`, state); `C[reg] *= tmp` is a `float` product. -/
def resetBody (A : Arith) (acc : Bool × Sketch) (reg : Nat) : Bool × Sketch :=
  let (tmp, s) := readProm reg acc.2
  let s := setC reg (A.single (s.dev.C reg * (tmp : ℚ))) s
  let PROM_OK := if reg > 0 then acc.1 && decide (tmp ≠ 0) else acc.1
  (PROM_OK, s)

/-- `bool MS56XX::reset(uint8_t mathMode)`. -/
def reset (A : Arith) (mathMode : Nat) (s : Sketch) : Bool × Sketch :=
  let mathMode := mathMode % 256
  let s := (command MS56XX_CMD_RESET s).2
  let s := { s with hw := delay 50 s.hw }
  let s := initConstants A mathMode s
  (List.range 7).foldl (resetBody A) (true, s)

/-- `bool MS56XX::begin(MS56XX_Config &config)`. -/
def begin (A : Arith) (config : MS56XX_Config) (s : Sketch) : Bool × Sketch :=
  let hw := TwoWire.beginTransmission config.wire config.i2c_address s.hw
  let (r, hw) := TwoWire.endTransmission config.wire hw
  if r ≠ 0 then (false, { s with hw := hw })
  else
    let _config : MS56XX_Config :=
      { i2c_address := config.i2c_address
        wire := config.wire
        ms56xx_type := config.ms56xx_type
        oversampling := config.oversampling }
    reset A config.ms56xx_type { dev := { s.dev with _config := _config }, hw := hw }

/-- Conversion of an `int` to `bool`: nonzero is `true`. -/
def intToBool (i : Int) : Bool := decide (i ≠ 0)

/-- Conversion of a floating-point value to `int32_t`: truncation toward
zero (the model does not wrap; out of range the conversion is undefined in
C++). -/
def toInt32 (x : ℚ) : Int := if 0 ≤ x then ⌊x⌋ else ⌈x⌉

/-- The first-order part of `read` (lines 72 to 76): the values of `dT`,
`new_temperature`, `offset` and `sens` before the second-order block.  All
four are `float` variables, `_D2` is converted to `float`. -/
def firstOrder (A : Arith) (C : Nat → ℚ) (_D2 : Nat) : ℚ × ℚ × ℚ × ℚ :=
  let dT := A.single (A.single (_D2 : ℚ) - C 5)
  let new_temperature := A.single (2000 + A.single (dT * C 6))
  let offset := A.single (C 2 + A.single (dT * C 4))
  let sens := A.single (C 1 + A.single (dT * C 3))
  (dT, new_temperature, offset, sens)

/-- The block of `read` under `if (new_temperature < 2000)` up to the three
subtractions: the values of `T2`, `offset2` and `sens2` there.  A product
with a `double` literal is a `double`, stored in a `float`. -/
def secondOrder (A : Arith) (dT new_temperature : ℚ) : ℚ × ℚ × ℚ :=
  let T2 := A.single (A.double (A.single (dT * dT) * A.double 4.6566128731E-10))
  let t := A.single (A.single (new_temperature - 2000) * A.single (new_temperature - 2000))
  let offset2 := A.single (A.double (A.double 2.5 * t))
  let sens2 := A.single (A.double (A.double 1.25 * t))
  if new_temperature < -1500 then
    let t := A.single (A.single (new_temperature + 1500) * A.single (new_temperature + 1500))
    let offset2 := A.single (offset2 + A.single (7 * t))
    let sens2 := A.single (A.double (sens2 + A.double (A.double 5.5 * t)))
    (T2, offset2, sens2)
  else (T2, offset2, sens2)

/-- The "TEMP & PRESS MATH" part of `read` (lines 71 to 97): from the table
`C` and the raw count `_D2` to the final values of `new_temperature`, `offset`
and `sens`. -/
def compensate (A : Arith) (C : Nat → ℚ) (_D2 : Nat) : ℚ × ℚ × ℚ :=
  let (dT, new_temperature, offset, sens) := firstOrder A C _D2
  if new_temperature < 2000 then
    let (T2, offset2, sens2) := secondOrder A dT new_temperature
    (A.single (new_temperature - T2), A.single (offset - offset2), A.single (sens - sens2))
  else (new_temperature, offset, sens)

/-- `bool MS56XX::read(MS56XX_Data &data, float outside_temperature)`.  The
result is the returned flag, the caller's record after the call, and the
state.  `log` is the C library's natural logarithm, a parameter of the model;
a division by zero gives 0 in `ℚ` (infinity in C++), which only touches the
altitude of a zero pressure. -/
def read (A : Arith) (log : ℚ → ℚ) (data : MS56XX_Data) (outside_temperature : ℚ)
    (s : Sketch) : Bool × MS56XX_Data × Sketch :=
  let s := convert MS56XX_CMD_CONVERT_D1 s.dev._config.oversampling s
  if s.dev.runTimeVariables.result ≠ 0 then
    (intToBool s.dev.runTimeVariables.result, data, s)
  else
    let (_D1, s) := readADC s
    if s.dev.runTimeVariables.result ≠ 0 then
      (intToBool s.dev.runTimeVariables.result, data, s)
    else
      let s := convert MS56XX_CMD_CONVERT_D2 s.dev._config.oversampling s
      if s.dev.runTimeVariables.result ≠ 0 then
        (intToBool s.dev.runTimeVariables.result, data, s)
      else
        let (_D2, s) := readADC s
        if s.dev.runTimeVariables.result ≠ 0 then
          (intToBool s.dev.runTimeVariables.result, data, s)
        else
          let (new_temperature, offset, sens) := compensate A s.dev.C _D2
          let data := { data with
            temperature := A.single (A.double (new_temperature * A.double 0.01)) }
          let data := { data with
            pressure := toInt32 (A.double (A.double (A.double
              (A.single (A.single (_D1 : ℚ) * sens) * A.double 4.76837158205E-7) - offset)
              * A.double 3.051757813E-5)) }
          let data := { data with
            altitude := A.single (A.double (A.double (A.double 29.271267
                * A.double (A.double 273.15 + outside_temperature))
              * log (A.single (101325 / A.single (data.pressure : ℚ))))) }
          let dev := { s.dev with
            runTimeVariables := { s.dev.runTimeVariables with lastRead := millis s.hw } }
          (true, data, { s with dev := dev })

/-! ## Auxiliary definitions: closed forms of the operations, the loop of `reset`, the sub-steps of `read` -/

/-- The three bus calls of one `command`. -/
def commandEvents (cfg : MS56XX_Config) (byte : Nat) : List BusEvent :=
  [.beginTransmission cfg.wire cfg.i2c_address, .write cfg.wire byte, .endTransmission cfg.wire]

/-- The `requestFrom` call of `readProm` and `readADC`. -/
def requestEvent (cfg : MS56XX_Config) (length : Nat) : BusEvent :=
  .requestFrom cfg.wire (cfg.i2c_address % 256) length

/-- The state after some bus calls that left `result` as the runtime result
and took `dt` microseconds. -/
def after (s : Sketch) (events : List BusEvent) (result : Int) (dt : Nat) : Sketch :=
  { dev := { s.dev with runTimeVariables := { s.dev.runTimeVariables with result := result } }
    hw := { s.hw with trace := s.hw.trace ++ events, clock := s.hw.clock + dt } }

/-- The index into `del` that `convert` computes from its argument `bits`. -/
def settleIndex (bits : Nat) : Nat :=
  ((if bits % 256 < 8 then 8 else if bits % 256 > 12 then 12 else bits % 256) - 8) % 256

/-- The value `readADC` assembles from the three `read()` results. -/
def adcValue (b0 b1 b2 : Int) : Nat :=
  ((((((b0 * 65536 % 4294967296).toNat : Int) + b1 * 256) % 4294967296).toNat : Int) + b2)
    % 4294967296 |>.toNat

/-- The value `readProm` assembles from the two `read()` results. -/
def promValue (b0 b1 : Int) : Nat :=
  (((b0 * 256 % 65536).toNat : Int) + b1) % 65536 |>.toNat

/-- The command bytes written in a trace, oldest first. -/
def writes : List BusEvent → List Nat
  | [] => []
  | .write _ byte :: rest => byte :: writes rest
  | _ :: rest => writes rest

/-- The state of `reset` when it enters its loop: after the reset command, the
50 ms delay and `initConstants`. -/
def resetStart (A : Arith) (mathMode : Nat) (s : Sketch) : Sketch :=
  initConstants A (mathMode % 256)
    { (command MS56XX_CMD_RESET s).2 with hw := delay 50 (command MS56XX_CMD_RESET s).2.hw }

/-- The pair (`PROM_OK`, state) of `reset` after the first `n` iterations of
its loop. -/
def resetLoop (A : Arith) (mathMode : Nat) (s : Sketch) (n : Nat) : Bool × Sketch :=
  (List.range n).foldl (resetBody A) (true, resetStart A mathMode s)

/-- The value `tmp` that `readProm(reg)` returns in iteration `reg` of the
loop of `reset`: the raw 16-bit value obtained for PROM register `reg`. -/
def promRaw (A : Arith) (mathMode : Nat) (s : Sketch) (reg : Nat) : Nat :=
  (readProm reg (resetLoop A mathMode s reg).2).1

/-- The result code of the PROM-read command that `reset` dispatches for
register `reg`. -/
def promResult (A : Arith) (mathMode : Nat) (s : Sketch) (reg : Nat) : Int :=
  (command (MS56XX_CMD_READ_PROM + 2 * reg) (resetLoop A mathMode s reg).2).1

/-- The state after the first sub-step of `read`, the pressure conversion. -/
def afterConvertD1 (s : Sketch) : Sketch :=
  convert MS56XX_CMD_CONVERT_D1 s.dev._config.oversampling s

/-- The state after the second sub-step of `read`, the pressure ADC read
(taken as if the conversion had succeeded). -/
def afterReadD1 (s : Sketch) : Sketch := (readADC (afterConvertD1 s)).2

/-- The state after the third sub-step of `read`, the temperature conversion
(taken as if the steps before it had succeeded). -/
def afterConvertD2 (s : Sketch) : Sketch :=
  convert MS56XX_CMD_CONVERT_D2 (afterReadD1 s).dev._config.oversampling (afterReadD1 s)

/-- The state after the fourth sub-step of `read`, the temperature ADC read
(taken as if the steps before it had succeeded). -/
def afterReadD2 (s : Sketch) : Sketch := (readADC (afterConvertD2 s)).2

/-! ## Concrete devices and buses -/

/-- A driver object that was never initialised further than its
configuration: bus 0, address 0x77, MS5611, ultra-high oversampling. -/
def freshDevice : MS56XX :=
  { runTimeVariables := { result := 0, lastRead := 0 }
    C := fun _ => 0
    _config := { wire := 0, i2c_address := 0x77, ms56xx_type := 0, oversampling := 12 } }

/-- The configuration a sketch passes to `begin`: bus 0, address 0x76, MS5607,
standard oversampling. -/
def sampleConfig : MS56XX_Config :=
  { wire := 0, i2c_address := 0x76, ms56xx_type := 1, oversampling := 10 }

/-- A record as a caller holds it from an earlier successful read. -/
def priorData : MS56XX_Data := { temperature := 21.5, pressure := 100800, altitude := 43.7 }

/-- A natural logarithm for concrete runs that never reach the altitude. -/
def noLog : ℚ → ℚ := fun _ => 0

/-- A bus on which no transaction is ever acknowledged: `endTransmission`
always gives 2 (address not acknowledged), no byte is ever available. -/
def nackBoard : Board :=
  { trace := []
    endTransmissionResult := fun _ => 2
    requestFromResult := fun _ => 0
    readResult := fun _ => -1
    clock := 0 }

/-- A fresh driver object on the bus that acknowledges nothing. -/
def nackSketch : Sketch := { dev := freshDevice, hw := nackBoard }

/-- A bus on which every transaction is acknowledged but no byte is ever
delivered. -/
def muteBoard : Board :=
  { trace := []
    endTransmissionResult := fun _ => 0
    requestFromResult := fun _ => 0
    readResult := fun _ => -1
    clock := 0 }

/-- A fresh driver object on the bus that delivers nothing. -/
def muteSketch : Sketch := { dev := freshDevice, hw := muteBoard }

/-- A bus on which every transaction is acknowledged, every request delivers
the bytes asked for, and every byte read is 1. -/
def onesBoard : Board :=
  { trace := []
    endTransmissionResult := fun _ => 0
    requestFromResult := fun t =>
      match t.getLast? with
      | some (.requestFrom _ _ n) => n
      | _ => 0
    readResult := fun _ => 1
    clock := 0 }

/-- A fresh driver object on the bus that delivers ones. -/
def onesSketch : Sketch := { dev := freshDevice, hw := onesBoard }

/-- A bus on which only the very first transaction is not acknowledged; every
later command is acknowledged and every byte read is 1. -/
def glitchBoard : Board :=
  { trace := []
    endTransmissionResult := fun t => if t.length ≤ 3 then 2 else 0
    requestFromResult := fun t =>
      match t.getLast? with
      | some (.requestFrom _ _ n) => n
      | _ => 0
    readResult := fun _ => 1
    clock := 0 }

/-- A fresh driver object on the bus with the glitch. -/
def glitchSketch : Sketch := { dev := freshDevice, hw := glitchBoard }

/-- The commands written so far that started a conversion (0x40..0x5F). -/
def conversions (t : List BusEvent) : List Nat :=
  (writes t).filter (fun b => decide (0x40 ≤ b) && decide (b < 0x60))

/-- The number of `read` calls at the end of a trace. -/
def trailingReads (t : List BusEvent) : Nat :=
  (t.reverse.takeWhile (fun e => match e with | .read _ => true | _ => false)).length

/-- A simulated sensor: the register it sends after the commands of `t`, and
the register's width in bytes.  After the command 0x00 it is the 24-bit result
of the last conversion (`D1` after a 0x4x command, `D2` after a 0x5x command),
after a command 0xA0 + 2 * i it is the PROM word `prom[i]`. -/
def sensorRegister (prom : List Nat) (D1 D2 : Nat) (t : List BusEvent) : Nat × Nat :=
  if (writes t).getLastD 0 = 0 then
    (if (conversions t).getLastD 0 < 0x50 then D1 else D2, 3)
  else (prom.getD (((writes t).getLastD 0 - 0xA0) / 2) 0, 2)

/-- A bus with one simulated sensor on it: every transaction is acknowledged,
every request delivers the bytes asked for, and the bytes read are those of
the selected register, most significant first. -/
def sensorBoard (prom : List Nat) (D1 D2 : Nat) : Board :=
  { trace := []
    endTransmissionResult := fun _ => 0
    requestFromResult := fun t =>
      match t.getLast? with
      | some (.requestFrom _ _ n) => n
      | _ => 0
    readResult := fun t =>
      ((sensorRegister prom D1 D2 t).1
        / 256 ^ ((sensorRegister prom D1 D2 t).2 - trailingReads t) % 256 : Nat)
    clock := 0 }

/-- The sensor of the datasheet's worked example (PROM word 0 reads as 0). -/
def datasheetSketch : Sketch :=
  { dev := freshDevice
    hw := sensorBoard [0, 40127, 36924, 23317, 23282, 33464, 28312, 0] 9085466 8569150 }

/-- The datasheet sensor after `reset(0)`, in exact rational arithmetic. -/
def calibratedSketch : Sketch := (reset Arith.rational 0 datasheetSketch).2

/-- The datasheet sensor after `reset(0)`, in IEEE 754 arithmetic. -/
def calibratedSketch754 : Sketch := (reset Arith.ieee754 0 datasheetSketch).2

/-- A sensor with the PROM words 1..5 of the datasheet example and the word
300 at index 6 (all of 1..6 nonzero). -/
def nearSketch : Sketch :=
  { dev := freshDevice
    hw := sensorBoard [0, 40127, 36924, 23317, 23282, 33464, 300, 0] 9085466 8566783 }

/-- The calibration table that `reset(0)` leaves on that sensor, in IEEE 754
arithmetic. -/
def nearTable : Nat → ℚ := (reset Arith.ieee754 0 nearSketch).2.dev.C

/-- A sensor with the PROM words 1..5 of the datasheet example and the word
56000 at index 6. -/
def coldSketch : Sketch :=
  { dev := freshDevice
    hw := sensorBoard [0, 40127, 36924, 23317, 23282, 33464, 56000, 0] 9085466 8042496 }

/-- The calibration table that `reset(0)` leaves on that sensor, in IEEE 754
arithmetic. -/
def coldTable : Nat → ℚ := (reset Arith.ieee754 0 coldSketch).2.dev.C

/-! ## Lemmas -/

/-- Closed form of `command`: three bus calls, the result code recorded. -/
theorem command_eq (c : Nat) (s : Sketch) :
    command c s =
      (s.hw.endTransmissionResult (s.hw.trace ++ commandEvents s.dev._config (c % 256)),
        after s (commandEvents s.dev._config (c % 256))
          (s.hw.endTransmissionResult (s.hw.trace ++ commandEvents s.dev._config (c % 256))) 0) := by
  simp [command, after, commandEvents, yield, TwoWire.beginTransmission, TwoWire.write,
    TwoWire.endTransmission, Board.emit]

/-- The wait loop, entered `e` microseconds after `start` with `10 * n` microseconds
to go, ends with the clock `w` microseconds after `start` and changes nothing else. -/
theorem waitLoop_eq (c0 w : Nat) (hw65 : w < 65536) (start : Nat)
    (hstart : start % 4294967296 = c0 % 4294967296) :
    ∀ (n e : Nat) (hw : Board), e + 10 * n = w → hw.clock = c0 + e →
      waitLoop start w hw = { hw with clock := c0 + w } := by
  intro n
  induction n with
  | zero =>
    intro e hw he hc
    rw [waitLoop]
    have : ¬ ((micros hw + 4294967296 - start % 4294967296) % 4294967296 < w % 65536) := by
      simp only [micros]; omega
    rw [if_neg this]
    cases hw
    simp only [Nat.mul_zero, Nat.add_zero] at he
    subst he
    simp_all
  | succ n ih =>
    intro e hw he hc
    rw [waitLoop]
    have : (micros hw + 4294967296 - start % 4294967296) % 4294967296 < w % 65536 := by
      simp only [micros]; omega
    rw [if_pos this]
    rw [ih (e + 10) (delayMicroseconds 10 (yield hw)) (by omega)
      (by simp only [delayMicroseconds, yield]; omega)]
    simp [delayMicroseconds, yield]

/-- The wait loop lets exactly `w` microseconds pass when `w` is a multiple of 10. -/
theorem waitLoop_settle (w : Nat) (hw65 : w < 65536) (h10 : w % 10 = 0) (hw : Board) :
    waitLoop (micros hw) w hw = { hw with clock := hw.clock + w } :=
  waitLoop_eq hw.clock w hw65 (micros hw) (by simp [micros]) (w / 10) 0 hw (by omega) (by omega)

/-- The index of `convert` is at most 4. -/
theorem settleIndex_le (bits : Nat) : settleIndex bits ≤ 4 := by
  unfold settleIndex
  split_ifs <;> omega

/-- Every entry of `del` fits a `uint16_t` and is a multiple of 10. -/
theorem del_settle (i : Nat) (hi : i ≤ 4) : del.getD i 0 < 65536 ∧ del.getD i 0 % 10 = 0 := by
  interval_cases i <;> simp [del]

/-- Closed form of `convert`: one command, then the settle time of the index. -/
theorem convert_eq (addr bits : Nat) (s : Sketch) :
    convert addr bits s =
      after s (commandEvents s.dev._config ((addr % 256 + settleIndex bits * 2 % 256) % 256))
        (s.hw.endTransmissionResult (s.hw.trace ++
          commandEvents s.dev._config ((addr % 256 + settleIndex bits * 2 % 256) % 256)))
        (del.getD (settleIndex bits) 0) := by
  have h := del_settle (settleIndex bits) (settleIndex_le bits)
  simp only [convert, command_eq]
  rw [show ((if bits % 256 < 8 then 8 else if bits % 256 > 12 then 12 else bits % 256) - 8) % 256
    = settleIndex bits from rfl]
  rw [waitLoop_settle _ h.1 h.2]
  simp [after]

/-- Closed form of `readADC` when the command is not acknowledged. -/
theorem readADC_fail (s : Sketch)
    (h : s.hw.endTransmissionResult (s.hw.trace ++ commandEvents s.dev._config 0) ≠ 0) :
    readADC s = (0, after s (commandEvents s.dev._config 0)
      (s.hw.endTransmissionResult (s.hw.trace ++ commandEvents s.dev._config 0)) 0) := by
  simp [readADC, command_eq, MS56XX_CMD_READ_ADC, after, h]

/-- Closed form of `readADC` when fewer than 3 bytes are available. -/
theorem readADC_short (s : Sketch)
    (h : s.hw.endTransmissionResult (s.hw.trace ++ commandEvents s.dev._config 0) = 0)
    (ha : s.hw.requestFromResult
      (s.hw.trace ++ commandEvents s.dev._config 0 ++ [requestEvent s.dev._config 3]) < 3) :
    readADC s = (0, after s (commandEvents s.dev._config 0 ++ [requestEvent s.dev._config 3]) 0 0) := by
  simp [readADC, command_eq, MS56XX_CMD_READ_ADC, after, h, TwoWire.requestFrom, Board.emit,
    requestEvent] at *
  simp [ha]

/-- Three bytes in 0..255 assemble without wrapping. -/
theorem adcValue_bytes (b0 b1 b2 : Int) (h0 : 0 ≤ b0 ∧ b0 ≤ 255) (h1 : 0 ≤ b1 ∧ b1 ≤ 255)
    (h2 : 0 ≤ b2 ∧ b2 ≤ 255) : (adcValue b0 b1 b2 : Int) = b0 * 65536 + b1 * 256 + b2 := by
  unfold adcValue
  omega

/-- Two bytes in 0..255 assemble without wrapping. -/
theorem promValue_bytes (b0 b1 : Int) (h0 : 0 ≤ b0 ∧ b0 ≤ 255) (h1 : 0 ≤ b1 ∧ b1 ≤ 255) :
    (promValue b0 b1 : Int) = b0 * 256 + b1 := by
  unfold promValue
  omega

/-- Closed form of `readADC` when the command is acknowledged and 3 bytes are
available. -/
theorem readADC_ok (s : Sketch)
    (h : s.hw.endTransmissionResult (s.hw.trace ++ commandEvents s.dev._config 0) = 0)
    (ha : 3 ≤ s.hw.requestFromResult
      (s.hw.trace ++ commandEvents s.dev._config 0 ++ [requestEvent s.dev._config 3])) :
    readADC s =
      (adcValue
          (s.hw.readResult (s.hw.trace ++ commandEvents s.dev._config 0 ++
              [requestEvent s.dev._config 3, .read s.dev._config.wire]))
          (s.hw.readResult (s.hw.trace ++ commandEvents s.dev._config 0 ++
              [requestEvent s.dev._config 3, .read s.dev._config.wire,
                .read s.dev._config.wire]))
          (s.hw.readResult (s.hw.trace ++ commandEvents s.dev._config 0 ++
              [requestEvent s.dev._config 3, .read s.dev._config.wire,
                .read s.dev._config.wire, .read s.dev._config.wire])),
        after s (commandEvents s.dev._config 0 ++
          [requestEvent s.dev._config 3, .read s.dev._config.wire,
            .read s.dev._config.wire, .read s.dev._config.wire]) 0 0) := by
  simp [readADC, command_eq, MS56XX_CMD_READ_ADC, after, h, TwoWire.requestFrom, Board.emit,
    requestEvent, TwoWire.read, adcValue] at *
  simp [ha]

/-- Closed form of `readProm` when the command is not acknowledged. -/
theorem readProm_fail (reg : Nat) (hreg : reg ≤ 7) (s : Sketch)
    (h : s.hw.endTransmissionResult
      (s.hw.trace ++ commandEvents s.dev._config (0xA0 + 2 * reg)) ≠ 0) :
    readProm reg s = (0, after s (commandEvents s.dev._config (0xA0 + 2 * reg))
      (s.hw.endTransmissionResult
        (s.hw.trace ++ commandEvents s.dev._config (0xA0 + 2 * reg))) 0) := by
  have e1 : reg % 256 = reg := by omega
  have e2 : (160 + reg * 2 % 256) % 256 = 160 + 2 * reg := by omega
  have e3 : ¬ reg > 7 := by omega
  simp only [readProm, command_eq, MS56XX_CMD_READ_PROM, e1, e2, e3, if_false] at *
  simp [after, h]

/-- Closed form of `readProm` when fewer than 2 bytes are available. -/
theorem readProm_short (reg : Nat) (hreg : reg ≤ 7) (s : Sketch)
    (h : s.hw.endTransmissionResult
      (s.hw.trace ++ commandEvents s.dev._config (0xA0 + 2 * reg)) = 0)
    (ha : s.hw.requestFromResult (s.hw.trace ++ commandEvents s.dev._config (0xA0 + 2 * reg) ++
      [requestEvent s.dev._config 2]) < 2) :
    readProm reg s = (0, after s (commandEvents s.dev._config (0xA0 + 2 * reg) ++
      [requestEvent s.dev._config 2]) 0 0) := by
  have e1 : reg % 256 = reg := by omega
  have e2 : (160 + reg * 2 % 256) % 256 = 160 + 2 * reg := by omega
  have e3 : ¬ reg > 7 := by omega
  simp only [readProm, command_eq, MS56XX_CMD_READ_PROM, e1, e2, e3, if_false] at *
  simp [after, h, TwoWire.requestFrom, Board.emit, requestEvent] at *
  simp [ha]

/-- Closed form of `readProm` when the command is acknowledged and 2 bytes are
available. -/
theorem readProm_ok (reg : Nat) (hreg : reg ≤ 7) (s : Sketch)
    (h : s.hw.endTransmissionResult
      (s.hw.trace ++ commandEvents s.dev._config (0xA0 + 2 * reg)) = 0)
    (ha : 2 ≤ s.hw.requestFromResult (s.hw.trace ++ commandEvents s.dev._config (0xA0 + 2 * reg) ++
      [requestEvent s.dev._config 2])) :
    readProm reg s =
      (promValue
          (s.hw.readResult (s.hw.trace ++ commandEvents s.dev._config (0xA0 + 2 * reg) ++
            [requestEvent s.dev._config 2, .read s.dev._config.wire]))
          (s.hw.readResult (s.hw.trace ++ commandEvents s.dev._config (0xA0 + 2 * reg) ++
            [requestEvent s.dev._config 2, .read s.dev._config.wire, .read s.dev._config.wire])),
        after s (commandEvents s.dev._config (0xA0 + 2 * reg) ++
          [requestEvent s.dev._config 2, .read s.dev._config.wire, .read s.dev._config.wire])
          0 0) := by
  have e1 : reg % 256 = reg := by omega
  have e2 : (160 + reg * 2 % 256) % 256 = 160 + 2 * reg := by omega
  have e3 : ¬ reg > 7 := by omega
  simp only [readProm, command_eq, MS56XX_CMD_READ_PROM, e1, e2, e3, if_false] at *
  simp [after, h, TwoWire.requestFrom, Board.emit, requestEvent, TwoWire.read, promValue] at *
  simp [ha]

/-- What `readProm` leaves untouched, and the shape of its bus activity: the
three calls of the command, then calls that write nothing. -/
theorem readProm_frame (reg : Nat) (hreg : reg ≤ 7) (s : Sketch) :
    (readProm reg s).2.dev.C = s.dev.C ∧ (readProm reg s).2.dev._config = s.dev._config ∧
    (readProm reg s).2.hw.clock = s.hw.clock ∧
    (readProm reg s).2.hw.endTransmissionResult = s.hw.endTransmissionResult ∧
    (readProm reg s).2.hw.requestFromResult = s.hw.requestFromResult ∧
    (readProm reg s).2.hw.readResult = s.hw.readResult ∧
    (readProm reg s).2.dev.runTimeVariables.lastRead = s.dev.runTimeVariables.lastRead := by
  by_cases h : s.hw.endTransmissionResult
      (s.hw.trace ++ commandEvents s.dev._config (0xA0 + 2 * reg)) = 0
  · by_cases ha : 2 ≤ s.hw.requestFromResult (s.hw.trace ++
        commandEvents s.dev._config (0xA0 + 2 * reg) ++ [requestEvent s.dev._config 2])
    · rw [readProm_ok reg hreg s h ha]; simp [after]
    · rw [readProm_short reg hreg s h (by omega)]; simp [after]
  · rw [readProm_fail reg hreg s h]; simp [after]

/-- The function `reset` is its loop run for seven iterations. -/
theorem reset_eq_loop (A : Arith) (mathMode : Nat) (s : Sketch) :
    reset A mathMode s = resetLoop A mathMode s 7 := rfl

/-- One more iteration of the loop of `reset`. -/
theorem resetLoop_succ (A : Arith) (mathMode : Nat) (s : Sketch) (n : Nat) :
    resetLoop A mathMode s (n + 1) = resetBody A (resetLoop A mathMode s n) n := by
  simp [resetLoop, List.range_succ]

/-- The loop of `reset` before its first iteration. -/
theorem resetLoop_zero (A : Arith) (mathMode : Nat) (s : Sketch) :
    resetLoop A mathMode s 0 = (true, resetStart A mathMode s) := rfl

/-- The flag after one iteration of the loop of `reset`. -/
theorem resetBody_flag (A : Arith) (acc : Bool × Sketch) (reg : Nat) :
    (resetBody A acc reg).1 =
      if reg > 0 then (acc.1 && decide ((readProm reg acc.2).1 ≠ 0)) else acc.1 := rfl

/-- The table after one iteration of the loop of `reset`. -/
theorem resetBody_C (A : Arith) (acc : Bool × Sketch) (reg : Nat) (hreg : reg ≤ 7) :
    (resetBody A acc reg).2.dev.C =
      Function.update acc.2.dev.C reg
        (A.single (acc.2.dev.C reg * ((readProm reg acc.2).1 : ℚ))) := by
  simp [resetBody, setC, (readProm_frame reg hreg acc.2).1]

/-- An iteration of the loop of `reset` touches the runtime, the configuration
and the runtime variables only through `readProm`. -/
theorem resetBody_frame (A : Arith) (acc : Bool × Sketch) (reg : Nat) :
    (resetBody A acc reg).2.hw = (readProm reg acc.2).2.hw ∧
    (resetBody A acc reg).2.dev._config = (readProm reg acc.2).2.dev._config ∧
    (resetBody A acc reg).2.dev.runTimeVariables =
      (readProm reg acc.2).2.dev.runTimeVariables :=
  ⟨rfl, rfl, rfl⟩

/-- The table after `n` iterations: the entries below `n` are multiplied by the
raw values read, the others are untouched. -/
theorem resetLoop_C (A : Arith) (mathMode : Nat) (s : Sketch) (n : Nat) (hn : n ≤ 7)
    (i : Nat) :
    (resetLoop A mathMode s n).2.dev.C i =
      if i < n then A.single ((resetStart A mathMode s).dev.C i * (promRaw A mathMode s i : ℚ))
      else (resetStart A mathMode s).dev.C i := by
  induction n with
  | zero => simp [resetLoop_zero]
  | succ n ih =>
    rw [resetLoop_succ, resetBody_C _ _ _ (by omega)]
    by_cases hi : i = n
    · subst hi
      simp [ih (by omega), promRaw]
    · rw [Function.update_noteq hi, ih (by omega)]
      by_cases h1 : i < n
      · simp [h1, Nat.lt_succ_of_lt h1]
      · have : ¬ i < n + 1 := by omega
        simp [h1, this]

/-- The flag after `n` iterations: all raw values of the registers 1..n-1 are
nonzero. -/
theorem resetLoop_flag (A : Arith) (mathMode : Nat) (s : Sketch) (n : Nat) :
    (resetLoop A mathMode s n).1 = true ↔
      ∀ i, 1 ≤ i → i < n → promRaw A mathMode s i ≠ 0 := by
  induction n with
  | zero => simp [resetLoop_zero]
  | succ n ih =>
    rw [resetLoop_succ, resetBody_flag]
    by_cases hn : n > 0
    · simp only [hn, if_true, Bool.and_eq_true, decide_eq_true_eq, ih]
      constructor
      · rintro ⟨h1, h2⟩ i hi1 hi2
        by_cases hi : i = n
        · subst hi; exact h2
        · exact h1 i hi1 (by omega)
      · intro h
        exact ⟨fun i hi1 hi2 => h i hi1 (by omega), h n hn (by omega)⟩
    · simp only [hn, if_false, ih]
      have : n = 0 := by omega
      subst this
      constructor
      · intro _ i hi1 hi2; omega
      · intro _ i hi1 hi2; omega

/-- What `convert` leaves untouched. -/
theorem convert_frame (addr bits : Nat) (s : Sketch) :
    (convert addr bits s).dev.C = s.dev.C ∧ (convert addr bits s).dev._config = s.dev._config ∧
    (convert addr bits s).hw.endTransmissionResult = s.hw.endTransmissionResult ∧
    (convert addr bits s).hw.requestFromResult = s.hw.requestFromResult ∧
    (convert addr bits s).hw.readResult = s.hw.readResult ∧
    (convert addr bits s).dev.runTimeVariables.lastRead = s.dev.runTimeVariables.lastRead := by
  rw [convert_eq]; simp [after]

/-- What `readADC` leaves untouched. -/
theorem readADC_frame (s : Sketch) :
    (readADC s).2.dev.C = s.dev.C ∧ (readADC s).2.dev._config = s.dev._config ∧
    (readADC s).2.hw.clock = s.hw.clock ∧
    (readADC s).2.hw.endTransmissionResult = s.hw.endTransmissionResult ∧
    (readADC s).2.hw.requestFromResult = s.hw.requestFromResult ∧
    (readADC s).2.hw.readResult = s.hw.readResult ∧
    (readADC s).2.dev.runTimeVariables.lastRead = s.dev.runTimeVariables.lastRead := by
  by_cases h : s.hw.endTransmissionResult (s.hw.trace ++ commandEvents s.dev._config 0) = 0
  · by_cases ha : 3 ≤ s.hw.requestFromResult (s.hw.trace ++
        commandEvents s.dev._config 0 ++ [requestEvent s.dev._config 3])
    · rw [readADC_ok s h ha]; simp [after]
    · rw [readADC_short s h (by omega)]; simp [after]
  · rw [readADC_fail s h]; simp [after]

/-- A nonzero result code after one of the four sub-steps: `read` returns true,
and neither the record nor the timestamp changes. -/
theorem read_abort (A : Arith) (log : ℚ → ℚ) (data : MS56XX_Data) (T : ℚ) (s : Sketch)
    (h : (afterConvertD1 s).dev.runTimeVariables.result ≠ 0 ∨
      (afterReadD1 s).dev.runTimeVariables.result ≠ 0 ∨
      (afterConvertD2 s).dev.runTimeVariables.result ≠ 0 ∨
      (afterReadD2 s).dev.runTimeVariables.result ≠ 0) :
    (read A log data T s).1 = true ∧ (read A log data T s).2.1 = data ∧
    (read A log data T s).2.2.dev.runTimeVariables.lastRead =
      s.dev.runTimeVariables.lastRead := by
  have f1 := (convert_frame MS56XX_CMD_CONVERT_D1 s.dev._config.oversampling s).2.2.2.2.2
  have f2 := (readADC_frame (afterConvertD1 s)).2.2.2.2.2.2
  have f3 := (convert_frame MS56XX_CMD_CONVERT_D2 (afterReadD1 s).dev._config.oversampling
    (afterReadD1 s)).2.2.2.2.2
  have f4 := (readADC_frame (afterConvertD2 s)).2.2.2.2.2.2
  simp only [afterConvertD1, afterReadD1, afterConvertD2, afterReadD2] at *
  simp only [read]
  split_ifs with h1 h2 h3 h4
  · simp [intToBool, h1, f1]
  · simp [intToBool, h2, f1, f2]
  · simp [intToBool, h3, f1, f2, f3]
  · simp [intToBool, h4, f1, f2, f3, f4]
  · simp_all

/-- All four sub-steps leave the result code 0: the values `read` stores. -/
theorem read_success (A : Arith) (log : ℚ → ℚ) (data : MS56XX_Data) (T : ℚ) (s : Sketch)
    (h1 : (afterConvertD1 s).dev.runTimeVariables.result = 0)
    (h2 : (afterReadD1 s).dev.runTimeVariables.result = 0)
    (h3 : (afterConvertD2 s).dev.runTimeVariables.result = 0)
    (h4 : (afterReadD2 s).dev.runTimeVariables.result = 0) :
    (read A log data T s).1 = true ∧
    (read A log data T s).2.1.temperature =
      A.single (A.double
        ((compensate A s.dev.C (readADC (afterConvertD2 s)).1).1 * A.double 0.01)) ∧
    (read A log data T s).2.1.pressure =
      toInt32 (A.double (A.double (A.double
        (A.single (A.single ((readADC (afterConvertD1 s)).1 : ℚ)
            * (compensate A s.dev.C (readADC (afterConvertD2 s)).1).2.2)
          * A.double 4.76837158205E-7)
        - (compensate A s.dev.C (readADC (afterConvertD2 s)).1).2.1)
        * A.double 3.051757813E-5)) ∧
    (read A log data T s).2.2.dev.runTimeVariables.lastRead = millis (afterReadD2 s).hw := by
  have c1 := (convert_frame MS56XX_CMD_CONVERT_D1 s.dev._config.oversampling s).1
  have c2 := (readADC_frame (afterConvertD1 s)).1
  have c3 := (convert_frame MS56XX_CMD_CONVERT_D2 (afterReadD1 s).dev._config.oversampling
    (afterReadD1 s)).1
  have c4 := (readADC_frame (afterConvertD2 s)).1
  simp only [afterConvertD1, afterReadD1, afterConvertD2, afterReadD2] at *
  simp only [read]
  simp [h1, h2, h3, h4, c1, c2, c3, c4]

/-- The compensation of the datasheet's worked example, in exact rationals. -/
theorem datasheet_compensate (C : Nat → ℚ)
    (h1 : C 1 = 32768 * 40127) (h2 : C 2 = 65536 * 36924) (h3 : C 3 = 3.90625E-3 * 23317)
    (h4 : C 4 = 7.8125E-3 * 23282) (h5 : C 5 = 256 * 33464) (h6 : C 6 = 1.1920928955E-7 * 28312) :
    compensate Arith.rational C 8569150 =
      (2509981720447474867 / 1250000000000000, 77449011751 / 32, 168332420619 / 128) := by
  simp only [compensate, firstOrder, Arith.rational, id, h1, h2, h3, h4, h5, h6]
  norm_num

/-- The index of `convert` for an 8-bit rank, as a clamp. -/
theorem settleIndex_eq (r : Nat) (hr : r < 256) : settleIndex r = min (max r 8) 12 - 8 := by
  unfold settleIndex
  rw [Nat.mod_eq_of_lt hr]
  split_ifs <;> omega

/-- The bytes written in a concatenation of traces. -/
theorem writes_append (a b : List BusEvent) : writes (a ++ b) = writes a ++ writes b := by
  induction a with
  | nil => simp [writes]
  | cons e a ih => cases e <;> simp [writes, ih]

/-- The function `readProm` writes exactly one byte, its command. -/
theorem readProm_writes (reg : Nat) (hreg : reg ≤ 7) (s : Sketch) :
    writes (readProm reg s).2.hw.trace = writes s.hw.trace ++ [0xA0 + 2 * reg] := by
  by_cases h : s.hw.endTransmissionResult
      (s.hw.trace ++ commandEvents s.dev._config (0xA0 + 2 * reg)) = 0
  · by_cases ha : 2 ≤ s.hw.requestFromResult (s.hw.trace ++
        commandEvents s.dev._config (0xA0 + 2 * reg) ++ [requestEvent s.dev._config 2])
    · rw [readProm_ok reg hreg s h ha]
      simp [after, writes_append, commandEvents, requestEvent, writes]
    · rw [readProm_short reg hreg s h (by omega)]
      simp [after, writes_append, commandEvents, requestEvent, writes]
  · rw [readProm_fail reg hreg s h]
    simp [after, writes_append, commandEvents, writes]

/-- Before its loop `reset` writes exactly the reset command. -/
theorem resetStart_writes (A : Arith) (mathMode : Nat) (s : Sketch) :
    writes (resetStart A mathMode s).hw.trace = writes s.hw.trace ++ [0x1E] := by
  simp only [resetStart, command_eq, MS56XX_CMD_RESET, initConstants, setC]
  split_ifs <;> simp [after, delay, writes_append, commandEvents, writes]

/-- After `n` iterations `reset` has written the reset command and the first `n`
PROM-read commands. -/
theorem resetLoop_writes (A : Arith) (mathMode : Nat) (s : Sketch) (n : Nat) (hn : n ≤ 7) :
    writes (resetLoop A mathMode s n).2.hw.trace =
      writes s.hw.trace ++ 0x1E :: (List.range n).map (fun i => 0xA0 + 2 * i) := by
  induction n with
  | zero => simp [resetLoop_zero, resetStart_writes]
  | succ n ih =>
    rw [resetLoop_succ, (resetBody_frame _ _ _).1, readProm_writes n (by omega), ih (by omega)]
    simp [List.range_succ]

/-- The table at the start of the loop of `reset`: the scale profile as
`initConstants` stores it. -/
theorem resetStart_C (A : Arith) (mathMode : Nat) (s : Sketch) (i : Nat) (hi : i < 7) :
    (resetStart A mathMode s).dev.C i =
      (if mathMode % 256 = 1
        then [1, 65536, 131072, A.single (A.double 7.8125e-3), A.single (A.double 1.5625e-2),
          256, A.single (A.double 1.1920928955e-7)]
        else [1, 32768, 65536, A.single (A.double 3.90625e-3), A.single (A.double 7.8125e-3),
          256, A.single (A.double 1.1920928955e-7)]).getD i 0 := by
  simp only [resetStart, initConstants, setC, Nat.mod_mod]
  split_ifs <;> interval_cases i <;> simp [Function.update]

/-- A PROM-read command that is not acknowledged gives the raw value 0. -/
theorem promRaw_of_result (A : Arith) (mathMode : Nat) (s : Sketch) (reg : Nat)
    (hreg : reg ≤ 7) (h : promResult A mathMode s reg ≠ 0) : promRaw A mathMode s reg = 0 := by
  simp only [promResult, command_eq, MS56XX_CMD_READ_PROM] at h
  have e : (160 + 2 * reg) % 256 = 0xA0 + 2 * reg := by omega
  rw [e] at h
  simp only [promRaw]
  rw [readProm_fail reg hreg _ h]

/-- A PROM read that delivers fewer than 2 bytes gives the raw value 0. -/
theorem promRaw_of_short (A : Arith) (mathMode : Nat) (s : Sketch) (reg : Nat)
    (hreg : reg ≤ 7)
    (h : (resetLoop A mathMode s reg).2.hw.requestFromResult
      ((command (MS56XX_CMD_READ_PROM + 2 * reg) (resetLoop A mathMode s reg).2).2.hw.trace ++
        [requestEvent (resetLoop A mathMode s reg).2.dev._config 2]) < 2) :
    promRaw A mathMode s reg = 0 := by
  by_cases hr : promResult A mathMode s reg = 0
  · simp only [promResult, command_eq, MS56XX_CMD_READ_PROM] at hr
    simp only [command_eq, MS56XX_CMD_READ_PROM, after] at h
    have e : (160 + 2 * reg) % 256 = 0xA0 + 2 * reg := by omega
    rw [e] at hr h
    simp only [promRaw]
    rw [readProm_short reg hreg _ hr h]
  · exact promRaw_of_result A mathMode s reg hreg hr

/-- The MS5611 scale profile of `initConstants(0)` in exact rationals. -/
theorem initConstants_zero_C (s : Sketch) :
    (initConstants Arith.rational 0 s).dev.C 1 = 32768 ∧
    (initConstants Arith.rational 0 s).dev.C 2 = 65536 ∧
    (initConstants Arith.rational 0 s).dev.C 3 = 3.90625E-3 ∧
    (initConstants Arith.rational 0 s).dev.C 4 = 7.8125E-3 ∧
    (initConstants Arith.rational 0 s).dev.C 5 = 256 ∧
    (initConstants Arith.rational 0 s).dev.C 6 = 1.1920928955E-7 := by
  simp [initConstants, setC, Function.update, Arith.rational]

/-- Closed form of the first sub-step of `read`. -/
theorem afterConvertD1_eq (s : Sketch) : afterConvertD1 s =
    after s (commandEvents s.dev._config ((0x40 + settleIndex s.dev._config.oversampling * 2) % 256))
      (s.hw.endTransmissionResult (s.hw.trace ++
        commandEvents s.dev._config ((0x40 + settleIndex s.dev._config.oversampling * 2) % 256)))
      (del.getD (settleIndex s.dev._config.oversampling) 0) := by
  have e : (MS56XX_CMD_CONVERT_D1 % 256 + settleIndex s.dev._config.oversampling * 2 % 256) % 256
      = (0x40 + settleIndex s.dev._config.oversampling * 2) % 256 := by
    simp only [MS56XX_CMD_CONVERT_D1]; omega
  rw [afterConvertD1, convert_eq, e]

/-- Closed form of the third sub-step of `read`. -/
theorem afterConvertD2_eq (s : Sketch) : afterConvertD2 s =
    after (afterReadD1 s) (commandEvents (afterReadD1 s).dev._config
        ((0x50 + settleIndex (afterReadD1 s).dev._config.oversampling * 2) % 256))
      ((afterReadD1 s).hw.endTransmissionResult ((afterReadD1 s).hw.trace ++
        commandEvents (afterReadD1 s).dev._config
          ((0x50 + settleIndex (afterReadD1 s).dev._config.oversampling * 2) % 256)))
      (del.getD (settleIndex (afterReadD1 s).dev._config.oversampling) 0) := by
  have e : (MS56XX_CMD_CONVERT_D2 % 256 + settleIndex (afterReadD1 s).dev._config.oversampling
      * 2 % 256) % 256
      = (0x50 + settleIndex (afterReadD1 s).dev._config.oversampling * 2) % 256 := by
    simp only [MS56XX_CMD_CONVERT_D2]; omega
  rw [afterConvertD2, convert_eq, e]

/-- The table after `reset`: the stored scale factor times the raw value,
rounded to `float`. -/
theorem reset_C (A : Arith) (mathMode : Nat) (s : Sketch) (i : Nat) (hi : i < 7) :
    (reset A mathMode s).2.dev.C i =
      A.single ((if mathMode % 256 = 1
        then [1, 65536, 131072, A.single (A.double 7.8125e-3), A.single (A.double 1.5625e-2),
          256, A.single (A.double 1.1920928955e-7)]
        else [1, 32768, 65536, A.single (A.double 3.90625e-3), A.single (A.double 7.8125e-3),
          256, A.single (A.double 1.1920928955e-7)]).getD i 0
        * (promRaw A mathMode s i : ℚ)) := by
  rw [reset_eq_loop, resetLoop_C A mathMode s 7 (le_refl 7) i, if_pos hi,
    resetStart_C A mathMode s i hi]

/-- For every state and bus behaviour `read` returns true: each failure exit
returns the nonzero result code converted to `bool`. -/
theorem read_returns_true (A : Arith) (log : ℚ → ℚ) (data : MS56XX_Data) (T : ℚ)
    (s : Sketch) : (read A log data T s).1 = true := by
  by_cases h : (afterConvertD1 s).dev.runTimeVariables.result ≠ 0 ∨
      (afterReadD1 s).dev.runTimeVariables.result ≠ 0 ∨
      (afterConvertD2 s).dev.runTimeVariables.result ≠ 0 ∨
      (afterReadD2 s).dev.runTimeVariables.result ≠ 0
  · exact (read_abort A log data T s h).1
  · simp only [not_or, not_not] at h
    exact (read_success A log data T s h.1 h.2.1 h.2.2.1 h.2.2.2).1

/-- A rational within a half of an integer rounds to it. -/
theorem roundHalfEven_of_near (q : ℚ) (m : ℤ) (h : |q - m| < 1 / 2) : roundHalfEven q = m := by
  rw [abs_lt] at h
  unfold roundHalfEven
  by_cases hq : (m : ℚ) ≤ q
  · have hf : ⌊q⌋ = m := by
      rw [Int.floor_eq_iff]; constructor <;> linarith
    rw [hf, if_pos (by linarith)]
  · have hf : ⌊q⌋ = m - 1 := by
      rw [Int.floor_eq_iff]; push_cast; constructor <;> linarith
    rw [hf]
    push_cast
    rw [if_neg (by linarith), if_pos (by linarith)]
    ring

/-- The binary exponent of a rational between two consecutive powers of 2. -/
theorem intLog_eq (x : ℚ) (e : ℤ) (h1 : (2 : ℚ) ^ e ≤ |x|) (h2 : |x| < (2 : ℚ) ^ (e + 1)) :
    Int.log 2 |x| = e := by
  have hpos : 0 < |x| := lt_of_lt_of_le (by positivity) h1
  have a : e ≤ Int.log 2 |x| :=
    (Int.zpow_le_iff_le_log (by norm_num) hpos).1 (by exact_mod_cast h1)
  have b : Int.log 2 |x| < e + 1 :=
    (Int.lt_zpow_iff_log_lt (by norm_num) hpos).1 (by exact_mod_cast h2)
  omega

/-- Evaluation of `roundBinary`: with `|x|` in `[2^e, 2^(e+1))` and `u` the
exponent of the unit in the last place there, `x` rounds to `m * 2^u` when
`x / 2^u` is within a half of the integer `m`. -/
theorem roundBinary_eq (p : Nat) (emin : Int) (x : ℚ) (e u m : ℤ)
    (h1 : (2 : ℚ) ^ e ≤ |x|) (h2 : |x| < (2 : ℚ) ^ (e + 1))
    (hu : u = max (e - ((p : Int) - 1)) (emin - ((p : Int) - 1)))
    (hm : |x / (2 : ℚ) ^ u - m| < 1 / 2) :
    roundBinary p emin x = m * (2 : ℚ) ^ u := by
  have hl := intLog_eq x e h1 h2
  have hue : ulpExponent p emin x = u := by
    unfold ulpExponent; rw [hl, hu]
  unfold roundBinary
  rw [hue, roundHalfEven_of_near _ m hm]

/-- Zero is a number of every format. -/
theorem roundBinary_zero (p : Nat) (emin : Int) : roundBinary p emin 0 = 0 := by
  unfold roundBinary
  rw [zero_div, roundHalfEven_of_near 0 0 (by norm_num)]
  simp

/-- A number `n * 2^k` with `|n| < 2^p` and `k` not below the least exponent
is a number of the format: rounding leaves it as it is. -/
theorem roundBinary_fixed (p : Nat) (emin : Int) (n k : ℤ)
    (hn : |n| < 2 ^ p) (hk : emin - ((p : Int) - 1) ≤ k) :
    roundBinary p emin ((n : ℚ) * (2 : ℚ) ^ k) = (n : ℚ) * (2 : ℚ) ^ k := by
  have h2 : (0 : ℚ) < 2 := by norm_num
  by_cases h0 : n = 0
  · subst h0
    simp only [Int.cast_zero, zero_mul]
    exact roundBinary_zero p emin
  have hu : ulpExponent p emin ((n : ℚ) * (2 : ℚ) ^ k) ≤ k := by
    unfold ulpExponent
    apply max_le _ hk
    have hpos : 0 < |(n : ℚ) * (2 : ℚ) ^ k| := by
      rw [abs_pos]
      exact mul_ne_zero (by exact_mod_cast h0) (zpow_ne_zero _ (by norm_num))
    have hlt : |(n : ℚ) * (2 : ℚ) ^ k| < ((2 : ℕ) : ℚ) ^ ((p : ℤ) + k) := by
      rw [abs_mul, abs_of_pos (zpow_pos h2 k), Nat.cast_ofNat, zpow_add₀ (by norm_num),
        zpow_natCast]
      apply mul_lt_mul_of_pos_right _ (zpow_pos h2 k)
      have : ((|n| : ℤ) : ℚ) < ((2 ^ p : ℤ) : ℚ) := by exact_mod_cast hn
      simpa using this
    have := (Int.lt_zpow_iff_log_lt (by norm_num) hpos).1 hlt
    omega
  obtain ⟨d, hd⟩ := Int.eq_ofNat_of_zero_le (sub_nonneg.mpr hu)
  have hq : (n : ℚ) * (2 : ℚ) ^ k / (2 : ℚ) ^ ulpExponent p emin ((n : ℚ) * (2 : ℚ) ^ k)
      = ((n * 2 ^ d : ℤ) : ℚ) := by
    rw [mul_div_assoc, ← zpow_sub₀ (by norm_num), hd]
    push_cast
    rw [zpow_natCast]
  unfold roundBinary
  rw [hq, roundHalfEven_of_near _ (n * 2 ^ d) (by simp)]
  push_cast
  rw [mul_assoc, ← zpow_natCast, ← zpow_add₀ (by norm_num), ← hd]
  congr 2
  ring

/-- Exact rational arithmetic does not round a `float` result. -/
theorem rational_single (x : ℚ) : Arith.rational.single x = x := rfl

/-- Exact rational arithmetic does not round a `double` result. -/
theorem rational_double (x : ℚ) : Arith.rational.double x = x := rfl

/-- A rational `n * 2^k` with `|n| < 2^24` and `k ≥ -149` is a binary32
number. -/
theorem binary32_fixed (x : ℚ) (n k : ℤ) (hx : x = (n : ℚ) * (2 : ℚ) ^ k)
    (hn : |n| < 2 ^ 24) (hk : -149 ≤ k) : binary32 x = x := by
  rw [hx]
  exact roundBinary_fixed 24 (-126) n k hn (by norm_num; omega)

/-- A rational `n * 2^k` with `|n| < 2^53` and `k ≥ -1074` is a binary64
number. -/
theorem binary64_fixed (x : ℚ) (n k : ℤ) (hx : x = (n : ℚ) * (2 : ℚ) ^ k)
    (hn : |n| < 2 ^ 53) (hk : -1074 ≤ k) : binary64 x = x := by
  rw [hx]
  exact roundBinary_fixed 53 (-1022) n k hn (by norm_num; omega)

/-- A `double` literal that is a binary32 number is stored in a `float` as it
is. -/
theorem ieee754_literal (x : ℚ) (n k : ℤ) (hx : x = (n : ℚ) * (2 : ℚ) ^ k)
    (hn : |n| < 2 ^ 24) (hk : -149 ≤ k) :
    Arith.ieee754.single (Arith.ieee754.double x) = x := by
  have hn2 : |n| < 2 ^ 53 := lt_trans hn (by norm_num)
  show binary32 (binary64 x) = x
  rw [binary64_fixed x n k hx hn2 (by omega), binary32_fixed x n k hx hn hk]

/-- The literal `1.1920928955E-7` is stored in a `float` as `2^-23`. -/
theorem ieee754_literal_C6 :
    Arith.ieee754.single (Arith.ieee754.double 1.1920928955E-7) = 1 / 8388608 := by
  have h64 : binary64 1.1920928955E-7 = 9007199254681962 * (2 : ℚ) ^ (-76 : ℤ) := by
    have := roundBinary_eq 53 (-1022) 1.1920928955E-7 (-24) (-76) 9007199254681962
      (by norm_num [abs_of_pos]) (by norm_num [abs_of_pos]) (by norm_num)
      (by rw [abs_lt]; constructor <;> norm_num)
    rw [binary64, this]; norm_num
  have h32 := roundBinary_eq 24 (-126) (9007199254681962 * (2 : ℚ) ^ (-76 : ℤ)) (-24) (-47)
    16777216
    (by norm_num [abs_of_pos]) (by norm_num [abs_of_pos]) (by norm_num)
    (by rw [abs_lt]; constructor <;> norm_num)
  show binary32 (binary64 1.1920928955E-7) = 1 / 8388608
  rw [h64, binary32, h32]; norm_num

/-- The value `readProm` returns is a `uint16_t`. -/
theorem readProm_lt (reg : Nat) (s : Sketch) : (readProm reg s).1 < 65536 := by
  by_cases hreg : reg % 256 > 7
  · simp [readProm, hreg]
  · have e : readProm reg s = readProm (reg % 256) s := by
      simp only [readProm, Nat.mod_mod]
    rw [e]
    have hr : reg % 256 ≤ 7 := by omega
    by_cases h : s.hw.endTransmissionResult
        (s.hw.trace ++ commandEvents s.dev._config (0xA0 + 2 * (reg % 256))) = 0
    · by_cases ha : 2 ≤ s.hw.requestFromResult (s.hw.trace ++
          commandEvents s.dev._config (0xA0 + 2 * (reg % 256)) ++ [requestEvent s.dev._config 2])
      · rw [readProm_ok _ hr s h ha]
        simp only [promValue]
        omega
      · rw [readProm_short _ hr s h (by omega)]; norm_num
    · rw [readProm_fail _ hr s h]; norm_num

/-- The product of a power of two and a 16-bit value is a binary32 number. -/
theorem binary32_scale (j : ℤ) (hj : -149 ≤ j) (c : ℚ) (hc : c = (2 : ℚ) ^ j) (n : ℕ)
    (hn : n < 65536) : binary32 (c * (n : ℚ)) = c * (n : ℚ) := by
  apply binary32_fixed _ (n : ℤ) j _ _ hj
  · rw [hc]; push_cast; ring
  · have : ((n : ℤ)) < 65536 := by exact_mod_cast hn
    rw [abs_of_nonneg (by positivity)]
    omega

/-- The table after `reset` in IEEE 754 arithmetic: every scale factor is a
power of two as stored, the last one `2^-23`, and the products are exact. -/
theorem reset_C_ieee754 (mathMode : Nat) (s : Sketch) (i : Nat) (hi : i < 7) :
    (reset Arith.ieee754 mathMode s).2.dev.C i =
      (if mathMode % 256 = 1
        then [1, 65536, 131072, 7.8125e-3, 1.5625e-2, 256, 1 / 8388608]
        else [1, 32768, 65536, 3.90625e-3, 7.8125e-3, 256, 1 / 8388608]).getD i 0
        * (promRaw Arith.ieee754 mathMode s i : ℚ) := by
  have hraw : promRaw Arith.ieee754 mathMode s i < 65536 := readProm_lt _ _
  have l3 : Arith.ieee754.single (Arith.ieee754.double 3.90625e-3) = 3.90625e-3 :=
    ieee754_literal _ 1 (-8) (by norm_num) (by norm_num) (by norm_num)
  have l4 : Arith.ieee754.single (Arith.ieee754.double 7.8125e-3) = 7.8125e-3 :=
    ieee754_literal _ 1 (-7) (by norm_num) (by norm_num) (by norm_num)
  have l5 : Arith.ieee754.single (Arith.ieee754.double 1.5625e-2) = 1.5625e-2 :=
    ieee754_literal _ 1 (-6) (by norm_num) (by norm_num) (by norm_num)
  rw [reset_C Arith.ieee754 mathMode s i hi, l3, l4, l5, ieee754_literal_C6]
  show binary32 _ = _
  split_ifs <;> interval_cases i <;>
    simp only [List.getD_cons_succ, List.getD_cons_zero]
  · exact binary32_scale 0 (by norm_num) _ (by norm_num) _ hraw
  · exact binary32_scale 16 (by norm_num) _ (by norm_num) _ hraw
  · exact binary32_scale 17 (by norm_num) _ (by norm_num) _ hraw
  · exact binary32_scale (-7) (by norm_num) _ (by norm_num) _ hraw
  · exact binary32_scale (-6) (by norm_num) _ (by norm_num) _ hraw
  · exact binary32_scale 8 (by norm_num) _ (by norm_num) _ hraw
  · exact binary32_scale (-23) (by norm_num) _ (by norm_num) _ hraw
  · exact binary32_scale 0 (by norm_num) _ (by norm_num) _ hraw
  · exact binary32_scale 15 (by norm_num) _ (by norm_num) _ hraw
  · exact binary32_scale 16 (by norm_num) _ (by norm_num) _ hraw
  · exact binary32_scale (-8) (by norm_num) _ (by norm_num) _ hraw
  · exact binary32_scale (-7) (by norm_num) _ (by norm_num) _ hraw
  · exact binary32_scale 8 (by norm_num) _ (by norm_num) _ hraw
  · exact binary32_scale (-23) (by norm_num) _ (by norm_num) _ hraw

/-- The `float` results of IEEE 754 arithmetic are binary32 roundings. -/
theorem ieee754_single (x : ℚ) : Arith.ieee754.single x = binary32 x := rfl

/-- The `double` results of IEEE 754 arithmetic are binary64 roundings. -/
theorem ieee754_double (x : ℚ) : Arith.ieee754.double x = binary64 x := rfl

/-- The entries 1..6 of the table `nearTable`, and the flag of the `reset`
that left it. -/
theorem nearTable_values :
    (reset Arith.ieee754 0 nearSketch).1 = true ∧
    nearTable 1 = 1314881536 ∧ nearTable 2 = 2419851264 ∧
    nearTable 3 = 23317 / 256 ∧ nearTable 4 = 23282 / 128 ∧
    nearTable 5 = 8566784 ∧ nearTable 6 = 300 / 8388608 := by
  have e : ∀ i, nearTable i = (reset Arith.ieee754 0 nearSketch).2.dev.C i := fun _ => rfl
  refine ⟨by decide, ?_, ?_, ?_, ?_, ?_, ?_⟩
  · rw [e, reset_C_ieee754 0 nearSketch 1 (by decide),
      show promRaw Arith.ieee754 0 nearSketch 1 = 40127 by decide]
    norm_num
  · rw [e, reset_C_ieee754 0 nearSketch 2 (by decide),
      show promRaw Arith.ieee754 0 nearSketch 2 = 36924 by decide]
    norm_num
  · rw [e, reset_C_ieee754 0 nearSketch 3 (by decide),
      show promRaw Arith.ieee754 0 nearSketch 3 = 23317 by decide]
    norm_num
  · rw [e, reset_C_ieee754 0 nearSketch 4 (by decide),
      show promRaw Arith.ieee754 0 nearSketch 4 = 23282 by decide]
    norm_num
  · rw [e, reset_C_ieee754 0 nearSketch 5 (by decide),
      show promRaw Arith.ieee754 0 nearSketch 5 = 33464 by decide]
    norm_num
  · rw [e, reset_C_ieee754 0 nearSketch 6 (by decide),
      show promRaw Arith.ieee754 0 nearSketch 6 = 300 by decide]
    norm_num

/-- The first-order values of the code at the table `nearTable` and
`D2 = 8566783`: `dT = -1`, `new_temperature` rounds to exactly 2000. -/
theorem nearTable_firstOrder :
    firstOrder Arith.ieee754 nearTable 8566783 = (-1, 2000, 2419851008, 1314881408) := by
  obtain ⟨_, c1, c2, c3, c4, c5, c6⟩ := nearTable_values
  have d0 : binary32 (8566783 : ℚ) = 8566783 :=
    binary32_fixed _ 8566783 0 (by norm_num) (by norm_num) (by norm_num)
  have d1 : binary32 (-1 : ℚ) = -1 :=
    binary32_fixed _ (-1) 0 (by norm_num) (by norm_num) (by norm_num)
  have p6 : binary32 (-(300 / 8388608) : ℚ) = -(300 / 8388608) :=
    binary32_fixed _ (-300) (-23) (by norm_num) (by norm_num) (by norm_num)
  have p4 : binary32 (-(23282 / 128) : ℚ) = -(23282 / 128) :=
    binary32_fixed _ (-23282) (-7) (by norm_num) (by norm_num) (by norm_num)
  have p3 : binary32 (-(23317 / 256) : ℚ) = -(23317 / 256) :=
    binary32_fixed _ (-23317) (-8) (by norm_num) (by norm_num) (by norm_num)
  have t : binary32 (2000 + -(300 / 8388608) : ℚ) = 2000 := by
    have := roundBinary_eq 24 (-126) (2000 + -(300 / 8388608) : ℚ) 10 (-13) 16384000
      (by norm_num [abs_of_pos]) (by norm_num [abs_of_pos]) (by norm_num)
      (by rw [abs_lt]; constructor <;> norm_num)
    rw [binary32, this]; norm_num
  have o : binary32 (2419851264 + -(23282 / 128) : ℚ) = 2419851008 := by
    have := roundBinary_eq 24 (-126) (2419851264 + -(23282 / 128) : ℚ) 31 8 9452543
      (by norm_num [abs_of_pos]) (by norm_num [abs_of_pos]) (by norm_num)
      (by rw [abs_lt]; constructor <;> norm_num)
    rw [binary32, this]; norm_num
  have sn : binary32 (1314881536 + -(23317 / 256) : ℚ) = 1314881408 := by
    have := roundBinary_eq 24 (-126) (1314881536 + -(23317 / 256) : ℚ) 30 7 10272511
      (by norm_num [abs_of_pos]) (by norm_num [abs_of_pos]) (by norm_num)
      (by rw [abs_lt]; constructor <;> norm_num)
    rw [binary32, this]; norm_num
  simp only [firstOrder, ieee754_single, c1, c2, c3, c4, c5, c6, Nat.cast_ofNat, d0]
  rw [show (8566783 : ℚ) - 8566784 = -1 by norm_num, d1,
    show (-1 : ℚ) * (300 / 8388608) = -(300 / 8388608) by norm_num, p6, t,
    show (-1 : ℚ) * (23282 / 128) = -(23282 / 128) by norm_num, p4, o,
    show (-1 : ℚ) * (23317 / 256) = -(23317 / 256) by norm_num, p3, sn]

/-- The entries 1..6 of the table `coldTable`, and the flag of the `reset`
that left it. -/
theorem coldTable_values :
    (reset Arith.ieee754 0 coldSketch).1 = true ∧
    coldTable 1 = 1314881536 ∧ coldTable 2 = 2419851264 ∧
    coldTable 3 = 23317 / 256 ∧ coldTable 4 = 23282 / 128 ∧
    coldTable 5 = 8566784 ∧ coldTable 6 = 56000 / 8388608 := by
  have e : ∀ i, coldTable i = (reset Arith.ieee754 0 coldSketch).2.dev.C i := fun _ => rfl
  refine ⟨by decide, ?_, ?_, ?_, ?_, ?_, ?_⟩
  · rw [e, reset_C_ieee754 0 coldSketch 1 (by decide),
      show promRaw Arith.ieee754 0 coldSketch 1 = 40127 by decide]
    norm_num
  · rw [e, reset_C_ieee754 0 coldSketch 2 (by decide),
      show promRaw Arith.ieee754 0 coldSketch 2 = 36924 by decide]
    norm_num
  · rw [e, reset_C_ieee754 0 coldSketch 3 (by decide),
      show promRaw Arith.ieee754 0 coldSketch 3 = 23317 by decide]
    norm_num
  · rw [e, reset_C_ieee754 0 coldSketch 4 (by decide),
      show promRaw Arith.ieee754 0 coldSketch 4 = 23282 by decide]
    norm_num
  · rw [e, reset_C_ieee754 0 coldSketch 5 (by decide),
      show promRaw Arith.ieee754 0 coldSketch 5 = 33464 by decide]
    norm_num
  · rw [e, reset_C_ieee754 0 coldSketch 6 (by decide),
      show promRaw Arith.ieee754 0 coldSketch 6 = 56000 by decide]
    norm_num

/-- The first-order values of the code at the table `coldTable` and
`D2 = 8042496`: every operation is exact, `new_temperature` is -1500. -/
theorem coldTable_firstOrder :
    firstOrder Arith.ieee754 coldTable 8042496 = (-524288, -1500, 2324488192, 1267128320) := by
  obtain ⟨_, c1, c2, c3, c4, c5, c6⟩ := coldTable_values
  have d0 : binary32 (8042496 : ℚ) = 8042496 :=
    binary32_fixed _ 8042496 0 (by norm_num) (by norm_num) (by norm_num)
  have d1 : binary32 (-524288 : ℚ) = -524288 :=
    binary32_fixed _ (-524288) 0 (by norm_num) (by norm_num) (by norm_num)
  have p6 : binary32 (-3500 : ℚ) = -3500 :=
    binary32_fixed _ (-3500) 0 (by norm_num) (by norm_num) (by norm_num)
  have t : binary32 (-1500 : ℚ) = -1500 :=
    binary32_fixed _ (-1500) 0 (by norm_num) (by norm_num) (by norm_num)
  have p4 : binary32 (-95363072 : ℚ) = -95363072 :=
    binary32_fixed _ (-23282) 12 (by norm_num) (by norm_num) (by norm_num)
  have o : binary32 (2324488192 : ℚ) = 2324488192 :=
    binary32_fixed _ 567502 12 (by norm_num) (by norm_num) (by norm_num)
  have p3 : binary32 (-47753216 : ℚ) = -47753216 :=
    binary32_fixed _ (-23317) 11 (by norm_num) (by norm_num) (by norm_num)
  have sn : binary32 (1267128320 : ℚ) = 1267128320 :=
    binary32_fixed _ 618715 11 (by norm_num) (by norm_num) (by norm_num)
  simp only [firstOrder, ieee754_single, c1, c2, c3, c4, c5, c6, Nat.cast_ofNat, d0]
  rw [show (8042496 : ℚ) - 8566784 = -524288 by norm_num, d1,
    show (-524288 : ℚ) * (56000 / 8388608) = -3500 by norm_num, p6,
    show (2000 : ℚ) + -3500 = -1500 by norm_num, t,
    show (-524288 : ℚ) * (23282 / 128) = -95363072 by norm_num, p4,
    show (2419851264 : ℚ) + -95363072 = 2324488192 by norm_num, o,
    show (-524288 : ℚ) * (23317 / 256) = -47753216 by norm_num, p3,
    show (1314881536 : ℚ) + -47753216 = 1267128320 by norm_num, sn]

/-- At `new_temperature` exactly -1500 the terms of the second branch are not
added, and the two products are exact: `offset2 = 30625000`,
`sens2 = 15312500`. -/
theorem secondOrder_at_boundary (dT : ℚ) :
    (secondOrder Arith.ieee754 dT (-1500)).2.1 = 30625000 ∧
    (secondOrder Arith.ieee754 dT (-1500)).2.2 = 15312500 := by
  have hn : ¬ ((-1500 : ℚ) < -1500) := lt_irrefl _
  have a : binary32 (-3500 : ℚ) = -3500 :=
    binary32_fixed _ (-3500) 0 (by norm_num) (by norm_num) (by norm_num)
  have b : binary32 (12250000 : ℚ) = 12250000 :=
    binary32_fixed _ 12250000 0 (by norm_num) (by norm_num) (by norm_num)
  have l1 : binary64 (2.5 : ℚ) = 2.5 :=
    binary64_fixed _ 5 (-1) (by norm_num) (by norm_num) (by norm_num)
  have l2 : binary64 (1.25 : ℚ) = 1.25 :=
    binary64_fixed _ 5 (-2) (by norm_num) (by norm_num) (by norm_num)
  have o64 : binary64 (30625000 : ℚ) = 30625000 :=
    binary64_fixed _ 30625000 0 (by norm_num) (by norm_num) (by norm_num)
  have o32 : binary32 (30625000 : ℚ) = 30625000 :=
    binary32_fixed _ 3828125 3 (by norm_num) (by norm_num) (by norm_num)
  have s64 : binary64 (15312500 : ℚ) = 15312500 :=
    binary64_fixed _ 15312500 0 (by norm_num) (by norm_num) (by norm_num)
  have s32 : binary32 (15312500 : ℚ) = 15312500 :=
    binary32_fixed _ 15312500 0 (by norm_num) (by norm_num) (by norm_num)
  simp only [secondOrder, if_neg hn, ieee754_single, ieee754_double]
  rw [show (-1500 : ℚ) - 2000 = -3500 by norm_num, a,
    show (-3500 : ℚ) * -3500 = 12250000 by norm_num, b, l1, l2,
    show (2.5 : ℚ) * 12250000 = 30625000 by norm_num, o64, o32,
    show (1.25 : ℚ) * 12250000 = 15312500 by norm_num, s64, s32]
  exact ⟨rfl, rfl⟩

/-- The temperature `read` stores for `new_temperature = 2000` is exactly 20:
the `double` product with the literal 0.01 rounds to 20. -/
theorem temperature_at_2000 :
    Arith.ieee754.single (Arith.ieee754.double (2000 * Arith.ieee754.double 0.01)) = 20 := by
  have l : binary64 (0.01 : ℚ) = 5764607523034235 * (2 : ℚ) ^ (-59 : ℤ) := by
    have := roundBinary_eq 53 (-1022) (0.01 : ℚ) (-7) (-59) 5764607523034235
      (by norm_num [abs_of_pos]) (by norm_num [abs_of_pos]) (by norm_num)
      (by rw [abs_lt]; constructor <;> norm_num)
    rw [binary64, this]; norm_num
  have p : binary64 (2000 * (5764607523034235 * (2 : ℚ) ^ (-59 : ℤ))) = 20 := by
    have := roundBinary_eq 53 (-1022) (2000 * (5764607523034235 * (2 : ℚ) ^ (-59 : ℤ)))
      4 (-48) 5629499534213120
      (by norm_num [abs_of_pos]) (by norm_num [abs_of_pos]) (by norm_num)
      (by rw [abs_lt]; constructor <;> norm_num)
    rw [binary64, this]; norm_num
  have f : binary32 (20 : ℚ) = 20 :=
    binary32_fixed _ 20 0 (by norm_num) (by norm_num) (by norm_num)
  simp only [ieee754_single, ieee754_double]
  rw [l, p, f]

/-- The second-order values of the code at `dT = -524288` and
`new_temperature = -1500`. -/
theorem coldTable_secondOrder :
    secondOrder Arith.ieee754 (-524288) (-1500) = (128, 30625000, 15312500) := by
  obtain ⟨h1, h2⟩ := secondOrder_at_boundary (-524288)
  have sq : binary32 ((-524288 : ℚ) * -524288) = 274877906944 :=
    (binary32_fixed _ 1 38 (by norm_num) (by norm_num) (by norm_num)).trans (by norm_num)
  have l : binary64 (4.6566128731E-10 : ℚ) = 4503599627392361 * (2 : ℚ) ^ (-83 : ℤ) := by
    have := roundBinary_eq 53 (-1022) (4.6566128731E-10 : ℚ) (-31) (-83) 4503599627392361
      (by norm_num [abs_of_pos]) (by norm_num [abs_of_pos]) (by norm_num)
      (by rw [abs_lt]; constructor <;> norm_num)
    rw [binary64, this]
    norm_num
  have p : binary64 (274877906944 * (4503599627392361 * (2 : ℚ) ^ (-83 : ℤ)))
      = 4503599627392361 * (2 : ℚ) ^ (-45 : ℤ) :=
    (binary64_fixed _ 4503599627392361 (-45) (by norm_num) (by norm_num) (by norm_num)).trans
      (by norm_num)
  have f : binary32 (4503599627392361 * (2 : ℚ) ^ (-45 : ℤ)) = 128 := by
    have := roundBinary_eq 24 (-126) (4503599627392361 * (2 : ℚ) ^ (-45 : ℤ)) 7 (-16) 8388608
      (by norm_num [abs_of_pos]) (by norm_num [abs_of_pos]) (by norm_num)
      (by rw [abs_lt]; constructor <;> norm_num)
    rw [binary32, this]; norm_num
  have t2 : (secondOrder Arith.ieee754 (-524288) (-1500)).1 = 128 := by
    have hn : ¬ ((-1500 : ℚ) < -1500) := lt_irrefl _
    simp only [secondOrder, if_neg hn, ieee754_single, ieee754_double]
    rw [sq, l, p, f]
  exact Prod.ext t2 (Prod.ext h1 h2)

/-- The function `compensate` in terms of the first-order values. -/
theorem compensate_of_firstOrder (A : Arith) (C : Nat → ℚ) (D2 : Nat) (dT nt off sn : ℚ)
    (h : firstOrder A C D2 = (dT, nt, off, sn)) :
    compensate A C D2 =
      if nt < 2000 then
        (A.single (nt - (secondOrder A dT nt).1), A.single (off - (secondOrder A dT nt).2.1),
          A.single (sn - (secondOrder A dT nt).2.2))
      else (nt, off, sn) := by
  simp only [compensate, h]

/-- The outputs of the compensation at the table `coldTable` and
`D2 = 8042496`. -/
theorem coldTable_compensate :
    compensate Arith.ieee754 coldTable 8042496 = (-1628, 2293863168, 1251815808) := by
  have a : binary32 (-1628 : ℚ) = -1628 :=
    binary32_fixed _ (-1628) 0 (by norm_num) (by norm_num) (by norm_num)
  have o : binary32 (2324488192 - 30625000 : ℚ) = 2293863168 := by
    have := roundBinary_eq 24 (-126) (2324488192 - 30625000 : ℚ) 31 8 8960403
      (by norm_num [abs_of_pos]) (by norm_num [abs_of_pos]) (by norm_num)
      (by rw [abs_lt]; constructor <;> norm_num)
    rw [binary32, this]; norm_num
  have sn : binary32 (1267128320 - 15312500 : ℚ) = 1251815808 := by
    have := roundBinary_eq 24 (-126) (1267128320 - 15312500 : ℚ) 30 7 9779811
      (by norm_num [abs_of_pos]) (by norm_num [abs_of_pos]) (by norm_num)
      (by rw [abs_lt]; constructor <;> norm_num)
    rw [binary32, this]; norm_num
  have hlt : ((-1500 : ℚ) < 2000) := by norm_num
  rw [compensate_of_firstOrder _ _ _ _ _ _ _ coldTable_firstOrder, if_pos hlt,
    coldTable_secondOrder]
  simp only [ieee754_single]
  rw [show (-1500 : ℚ) - 128 = -1628 by norm_num, a, o, sn]

/-- A rational exactly halfway between two integers rounds to the even one. -/
theorem roundHalfEven_of_tie (q : ℚ) (f : ℤ) (h : q = f + 1 / 2) :
    roundHalfEven q = if f % 2 = 0 then f else f + 1 := by
  have hf : ⌊q⌋ = f := by
    rw [Int.floor_eq_iff]; constructor <;> linarith
  unfold roundHalfEven
  rw [hf, if_neg (by linarith), if_neg (by linarith)]

/-- Evaluation of `roundBinary` from the rounded significand. -/
theorem roundBinary_eq_of_round (p : Nat) (emin : Int) (x : ℚ) (e u m : ℤ)
    (h1 : (2 : ℚ) ^ e ≤ |x|) (h2 : |x| < (2 : ℚ) ^ (e + 1))
    (hu : u = max (e - ((p : Int) - 1)) (emin - ((p : Int) - 1)))
    (hm : roundHalfEven (x / (2 : ℚ) ^ u) = m) :
    roundBinary p emin x = m * (2 : ℚ) ^ u := by
  have hl := intLog_eq x e h1 h2
  have hue : ulpExponent p emin x = u := by
    unfold ulpExponent; rw [hl, hu]
  unfold roundBinary
  rw [hue, hm]

/-- The compensation of the datasheet's worked example in IEEE 754
arithmetic, with the table that `reset(0)` leaves. -/
theorem datasheet_compensate_ieee754 (C : Nat → ℚ)
    (h1 : C 1 = 1314881536) (h2 : C 2 = 2419851264) (h3 : C 3 = 23317 / 256)
    (h4 : C 4 = 23282 / 128) (h5 : C 5 = 8566784) (h6 : C 6 = 28312 / 8388608) :
    compensate Arith.ieee754 C 8569150 = (2056177 / 1024, 2420281600, 1315097088) := by
  have d0 : binary32 (8569150 : ℚ) = 8569150 :=
    binary32_fixed _ 8569150 0 (by norm_num) (by norm_num) (by norm_num)
  have d1 : binary32 (2366 : ℚ) = 2366 :=
    binary32_fixed _ 2366 0 (by norm_num) (by norm_num) (by norm_num)
  have p6 : binary32 (2366 * (28312 / 8388608) : ℚ) = 2366 * (28312 / 8388608) :=
    binary32_fixed _ 16746548 (-21) (by norm_num) (by norm_num) (by norm_num)
  have t : binary32 (2000 + 2366 * (28312 / 8388608) : ℚ) = 2056177 / 1024 := by
    have := roundBinary_eq 24 (-126) (2000 + 2366 * (28312 / 8388608) : ℚ) 10 (-13) 16449416
      (by norm_num [abs_of_pos]) (by norm_num [abs_of_pos]) (by norm_num)
      (by rw [abs_lt]; constructor <;> norm_num)
    rw [binary32, this]; norm_num
  have p4 : binary32 (2366 * (23282 / 128) : ℚ) = 2366 * (23282 / 128) :=
    binary32_fixed _ 13771303 (-5) (by norm_num) (by norm_num) (by norm_num)
  have o : binary32 (2419851264 + 2366 * (23282 / 128) : ℚ) = 2420281600 := by
    have := roundBinary_eq 24 (-126) (2419851264 + 2366 * (23282 / 128) : ℚ) 31 8 9454225
      (by norm_num [abs_of_pos]) (by norm_num [abs_of_pos]) (by norm_num)
      (by rw [abs_lt]; constructor <;> norm_num)
    rw [binary32, this]; norm_num
  have p3 : binary32 (2366 * (23317 / 256) : ℚ) = 13792006 / 64 := by
    have hm : roundHalfEven ((2366 * (23317 / 256) : ℚ) / (2 : ℚ) ^ (-6 : ℤ)) = 13792006 := by
      rw [roundHalfEven_of_tie _ 13792005 (by norm_num)]
      decide
    have := roundBinary_eq_of_round 24 (-126) (2366 * (23317 / 256) : ℚ) 17 (-6) 13792006
      (by norm_num [abs_of_pos]) (by norm_num [abs_of_pos]) (by norm_num) hm
    rw [binary32, this]; norm_num
  have sn : binary32 (1314881536 + 13792006 / 64 : ℚ) = 1315097088 := by
    have := roundBinary_eq 24 (-126) (1314881536 + 13792006 / 64 : ℚ) 30 7 10274196
      (by norm_num [abs_of_pos]) (by norm_num [abs_of_pos]) (by norm_num)
      (by rw [abs_lt]; constructor <;> norm_num)
    rw [binary32, this]; norm_num
  have fo : firstOrder Arith.ieee754 C 8569150 =
      (2366, 2056177 / 1024, 2420281600, 1315097088) := by
    simp only [firstOrder, ieee754_single, h1, h2, h3, h4, h5, h6, Nat.cast_ofNat, d0]
    rw [show (8569150 : ℚ) - 8566784 = 2366 by norm_num, d1, p6, t, p4, o, p3, sn]
  have hn : ¬ ((2056177 / 1024 : ℚ) < 2000) := by norm_num
  rw [compensate_of_firstOrder _ _ _ _ _ _ _ fo, if_neg hn]

/-- The datasheet's worked example in IEEE 754 arithmetic: with the table that
`reset(0)` leaves for the PROM words of the example, all four sub-steps
succeeding and the ADC reads giving D1 = 9085466 and D2 = 8569150, `read`
returns true and stores the pressure 100009 and the temperature
5263813 / 262144 (20.0798...), as in exact rational arithmetic. -/
theorem read_datasheet_example_ieee754 (log : ℚ → ℚ) (data : MS56XX_Data)
    (outside_temperature : ℚ) (s : Sketch)
    (c1 : s.dev.C 1 = 1314881536) (c2 : s.dev.C 2 = 2419851264)
    (c3 : s.dev.C 3 = 23317 / 256) (c4 : s.dev.C 4 = 23282 / 128)
    (c5 : s.dev.C 5 = 8566784) (c6 : s.dev.C 6 = 28312 / 8388608)
    (h1 : (afterConvertD1 s).dev.runTimeVariables.result = 0)
    (h2 : (afterReadD1 s).dev.runTimeVariables.result = 0)
    (hD1 : (readADC (afterConvertD1 s)).1 = 9085466)
    (h3 : (afterConvertD2 s).dev.runTimeVariables.result = 0)
    (h4 : (afterReadD2 s).dev.runTimeVariables.result = 0)
    (hD2 : (readADC (afterConvertD2 s)).1 = 8569150) :
    (read Arith.ieee754 log data outside_temperature s).1 = true ∧
    (read Arith.ieee754 log data outside_temperature s).2.1.pressure = 100009 ∧
    (read Arith.ieee754 log data outside_temperature s).2.1.temperature
      = 5263813 / 262144 := by
  have hc := datasheet_compensate_ieee754 s.dev.C c1 c2 c3 c4 c5 c6
  obtain ⟨r1, r2, r3, _⟩ := read_success Arith.ieee754 log data outside_temperature s h1 h2 h3 h4
  rw [hD2, hc] at r2 r3
  rw [hD1] at r3
  simp only [ieee754_single, ieee754_double, Nat.cast_ofNat] at r2 r3
  have l001 : binary64 (0.01 : ℚ) = 5764607523034235 * (2 : ℚ) ^ (-59 : ℤ) := by
    have := roundBinary_eq 53 (-1022) (0.01 : ℚ) (-7) (-59) 5764607523034235
      (by norm_num [abs_of_pos]) (by norm_num [abs_of_pos]) (by norm_num)
      (by rw [abs_lt]; constructor <;> norm_num)
    rw [binary64, this]; norm_num
  have tm : binary64 (2056177 / 1024 * (5764607523034235 * (2 : ℚ) ^ (-59 : ℤ)))
      = 5651976300663931 * (2 : ℚ) ^ (-48 : ℤ) := by
    have := roundBinary_eq 53 (-1022)
      (2056177 / 1024 * (5764607523034235 * (2 : ℚ) ^ (-59 : ℤ))) 4 (-48) 5651976300663931
      (by norm_num [abs_of_pos]) (by norm_num [abs_of_pos]) (by norm_num)
      (by rw [abs_lt]; constructor <;> norm_num)
    rw [binary64, this]; norm_num
  have tf : binary32 (5651976300663931 * (2 : ℚ) ^ (-48 : ℤ)) = 5263813 / 262144 := by
    have := roundBinary_eq 24 (-126) (5651976300663931 * (2 : ℚ) ^ (-48 : ℤ)) 4 (-19) 10527626
      (by norm_num [abs_of_pos]) (by norm_num [abs_of_pos]) (by norm_num)
      (by rw [abs_lt]; constructor <;> norm_num)
    rw [binary32, this]; norm_num
  have d1 : binary32 (9085466 : ℚ) = 9085466 :=
    binary32_fixed _ 9085466 0 (by norm_num) (by norm_num) (by norm_num)
  have p1 : binary32 (9085466 * 1315097088 : ℚ) = 11948269378732032 := by
    have := roundBinary_eq 24 (-126) (9085466 * 1315097088 : ℚ) 53 30 11127693
      (by norm_num [abs_of_pos]) (by norm_num [abs_of_pos]) (by norm_num)
      (by rw [abs_lt]; constructor <;> norm_num)
    rw [binary32, this]; norm_num
  have l1 : binary64 (4.76837158205E-7 : ℚ) = 4503599627388205 * (2 : ℚ) ^ (-73 : ℤ) := by
    have := roundBinary_eq 53 (-1022) (4.76837158205E-7 : ℚ) (-21) (-73) 4503599627388205
      (by norm_num [abs_of_pos]) (by norm_num [abs_of_pos]) (by norm_num)
      (by rw [abs_lt]; constructor <;> norm_num)
    rw [binary64, this]; norm_num
  have p2 : binary64 (11948269378732032 * (4503599627388205 * (2 : ℚ) ^ (-73 : ℤ)))
      = 5974134689389507 * (2 : ℚ) ^ (-20 : ℤ) := by
    have := roundBinary_eq 53 (-1022)
      (11948269378732032 * (4503599627388205 * (2 : ℚ) ^ (-73 : ℤ))) 32 (-20) 5974134689389507
      (by norm_num [abs_of_pos]) (by norm_num [abs_of_pos]) (by norm_num)
      (by rw [abs_lt]; constructor <;> norm_num)
    rw [binary64, this]
    norm_num
  have p3 : binary64 (5974134689389507 * (2 : ℚ) ^ (-20 : ℤ) - 2420281600)
      = 3436285490387907 * (2 : ℚ) ^ (-20 : ℤ) :=
    (binary64_fixed _ 3436285490387907 (-20) (by norm_num) (by norm_num) (by norm_num)).trans
      (by norm_num)
  have l2 : binary64 (3.051757813E-5 : ℚ) = 4503599628108366 * (2 : ℚ) ^ (-67 : ℤ) := by
    have := roundBinary_eq 53 (-1022) (3.051757813E-5 : ℚ) (-15) (-67) 4503599628108366
      (by norm_num [abs_of_pos]) (by norm_num [abs_of_pos]) (by norm_num)
      (by rw [abs_lt]; constructor <;> norm_num)
    rw [binary64, this]; norm_num
  have p4 : binary64 (3436285490387907 * (2 : ℚ) ^ (-20 : ℤ)
      * (4503599628108366 * (2 : ℚ) ^ (-67 : ℤ)))
      = 6872570981901816 * (2 : ℚ) ^ (-36 : ℤ) := by
    have := roundBinary_eq 53 (-1022) (3436285490387907 * (2 : ℚ) ^ (-20 : ℤ)
      * (4503599628108366 * (2 : ℚ) ^ (-67 : ℤ))) 16 (-36) 6872570981901816
      (by norm_num [abs_of_pos]) (by norm_num [abs_of_pos]) (by norm_num)
      (by rw [abs_lt]; constructor <;> norm_num)
    rw [binary64, this]
    norm_num
  rw [l001, tm, tf] at r2
  rw [d1, p1, l1, p2, p3, l2, p4] at r3
  refine ⟨r1, ?_, r2⟩
  rw [r3]
  have hpos : (0 : ℚ) ≤ 6872570981901816 * (2 : ℚ) ^ (-36 : ℤ) := by norm_num
  simp only [toInt32, if_pos hpos]
  rw [Int.floor_eq_iff]
  constructor <;> norm_num

/-- The worked example run on the simulated datasheet sensor in IEEE 754
arithmetic: `reset(0)`, then `read`, stores the pressure 100009. -/
theorem read_datasheet_sensor_ieee754 :
    (read Arith.ieee754 noLog priorData 15 calibratedSketch754).1 = true ∧
    (read Arith.ieee754 noLog priorData 15 calibratedSketch754).2.1.pressure = 100009 ∧
    (read Arith.ieee754 noLog priorData 15 calibratedSketch754).2.1.temperature
      = 5263813 / 262144 := by
  have e : ∀ i, calibratedSketch754.dev.C i =
      (reset Arith.ieee754 0 datasheetSketch).2.dev.C i := fun _ => rfl
  have c1 : calibratedSketch754.dev.C 1 = 1314881536 := by
    rw [e, reset_C_ieee754 0 datasheetSketch 1 (by decide),
      show promRaw Arith.ieee754 0 datasheetSketch 1 = 40127 by decide]
    norm_num
  have c2 : calibratedSketch754.dev.C 2 = 2419851264 := by
    rw [e, reset_C_ieee754 0 datasheetSketch 2 (by decide),
      show promRaw Arith.ieee754 0 datasheetSketch 2 = 36924 by decide]
    norm_num
  have c3 : calibratedSketch754.dev.C 3 = 23317 / 256 := by
    rw [e, reset_C_ieee754 0 datasheetSketch 3 (by decide),
      show promRaw Arith.ieee754 0 datasheetSketch 3 = 23317 by decide]
    norm_num
  have c4 : calibratedSketch754.dev.C 4 = 23282 / 128 := by
    rw [e, reset_C_ieee754 0 datasheetSketch 4 (by decide),
      show promRaw Arith.ieee754 0 datasheetSketch 4 = 23282 by decide]
    norm_num
  have c5 : calibratedSketch754.dev.C 5 = 8566784 := by
    rw [e, reset_C_ieee754 0 datasheetSketch 5 (by decide),
      show promRaw Arith.ieee754 0 datasheetSketch 5 = 33464 by decide]
    norm_num
  have c6 : calibratedSketch754.dev.C 6 = 28312 / 8388608 := by
    rw [e, reset_C_ieee754 0 datasheetSketch 6 (by decide),
      show promRaw Arith.ieee754 0 datasheetSketch 6 = 28312 by decide]
    norm_num
  exact read_datasheet_example_ieee754 noLog priorData 15 calibratedSketch754
    c1 c2 c3 c4 c5 c6
    (by rw [afterConvertD1_eq]; decide)
    (by rw [afterReadD1, afterConvertD1_eq]; decide)
    (by rw [afterConvertD1_eq]; decide)
    (by rw [afterConvertD2_eq, afterReadD1, afterConvertD1_eq]; decide)
    (by rw [afterReadD2, afterConvertD2_eq, afterReadD1, afterConvertD1_eq]; decide)
    (by rw [afterConvertD2_eq, afterReadD1, afterConvertD1_eq]; decide)

/-! ## The claims -/

/-- C1, the code at the failing input: on a bus that does not acknowledge the
pressure conversion command, the runtime result after the conversion is 2 and
`read` returns true. -/
theorem read_failure_returns_true :
    (afterConvertD1 nackSketch).dev.runTimeVariables.result = 2 ∧
    (read Arith.ieee754 noLog priorData 15 nackSketch).1 = true := by
  have h : (afterConvertD1 nackSketch).dev.runTimeVariables.result
      = 2 := by
    simp only [afterConvertD1]; rw [convert_eq]; rfl
  exact ⟨h, (read_abort Arith.ieee754 noLog priorData 15 _ (Or.inl (by rw [h]; decide))).1⟩

/-- C2: in every arithmetic, when one of the four sub-steps of `read` (pressure conversion, pressure
ADC read, temperature conversion, temperature ADC read) leaves a nonzero result
code, the caller's record after `read` is the record before the call and the
last-read timestamp is unchanged. -/
theorem read_failure_frame (A : Arith) (log : ℚ → ℚ) (data : MS56XX_Data)
    (outside_temperature : ℚ) (s : Sketch)
    (h : (afterConvertD1 s).dev.runTimeVariables.result ≠ 0 ∨
      (afterReadD1 s).dev.runTimeVariables.result ≠ 0 ∨
      (afterConvertD2 s).dev.runTimeVariables.result ≠ 0 ∨
      (afterReadD2 s).dev.runTimeVariables.result ≠ 0) :
    (read A log data outside_temperature s).2.1 = data ∧
    (read A log data outside_temperature s).2.2.dev.runTimeVariables.lastRead =
      s.dev.runTimeVariables.lastRead :=
  (read_abort A log data outside_temperature s h).2

/-- Witness for C2: a read on a bus that does not acknowledge. -/
theorem read_failure_frame_witness :
    (read Arith.ieee754 noLog priorData 15 nackSketch).2.1 = priorData ∧
    (read Arith.ieee754 noLog priorData 15 nackSketch).2.2.dev.runTimeVariables.lastRead = 0 :=
  read_failure_frame Arith.ieee754 noLog priorData 15 nackSketch
    (Or.inl (by rw [afterConvertD1_eq]; decide))

/-- C3: `reset` returns true exactly when the raw values `readProm` returned
for the registers 1 to 6 are all nonzero; the value for register 0 does not
enter (two runs that agree on which of the registers 1..6 read as zero return
the same flag); a register whose PROM-read command has a nonzero result code,
or whose request delivers fewer than 2 bytes, has raw value 0. -/
theorem reset_flag_iff (A : Arith) (variant : Nat) (s : Sketch) :
    ((reset A variant s).1 = true ↔ ∀ i, 1 ≤ i → i ≤ 6 → promRaw A variant s i ≠ 0) ∧
    (∀ (variant2 : Nat) (s2 : Sketch),
      (∀ i, 1 ≤ i → i ≤ 6 → (promRaw A variant s i = 0 ↔ promRaw A variant2 s2 i = 0)) →
      (reset A variant s).1 = (reset A variant2 s2).1) ∧
    (∀ i, i ≤ 6 → promResult A variant s i ≠ 0 → promRaw A variant s i = 0) ∧
    (∀ i, i ≤ 6 →
      (resetLoop A variant s i).2.hw.requestFromResult
        ((command (MS56XX_CMD_READ_PROM + 2 * i) (resetLoop A variant s i).2).2.hw.trace ++
          [.requestFrom (resetLoop A variant s i).2.dev._config.wire
            ((resetLoop A variant s i).2.dev._config.i2c_address % 256) 2]) < 2 →
      promRaw A variant s i = 0) := by
  have key : ∀ (v : Nat) (t : Sketch),
      (reset A v t).1 = true ↔ ∀ i, 1 ≤ i → i ≤ 6 → promRaw A v t i ≠ 0 := by
    intro v t
    rw [reset_eq_loop, resetLoop_flag]
    constructor
    · intro h i h1 h2; exact h i h1 (by omega)
    · intro h i h1 h2; exact h i h1 (by omega)
  refine ⟨key variant s, ?_, ?_, ?_⟩
  · intro variant2 s2 h
    have : (reset A variant s).1 = true ↔ (reset A variant2 s2).1 = true := by
      rw [key, key]
      constructor
      · intro h1 i hi1 hi2 h0; exact h1 i hi1 hi2 ((h i hi1 hi2).2 h0)
      · intro h1 i hi1 hi2 h0; exact h1 i hi1 hi2 ((h i hi1 hi2).1 h0)
    cases h1 : (reset A variant s).1 <;> cases h2 : (reset A variant2 s2).1 <;> simp_all
  · intro i hi h
    exact promRaw_of_result A variant s i (by omega) h
  · intro i hi h
    exact promRaw_of_short A variant s i (by omega) h

/-- Witness for C3: the datasheet sensor, whose PROM word 0 reads as 0 and
whose words 1..6 are nonzero, passes; a bus that acknowledges nothing fails,
every raw value being 0. -/
theorem reset_flag_iff_witness :
    promRaw Arith.ieee754 0 datasheetSketch 0 = 0 ∧ (reset Arith.ieee754 0 datasheetSketch).1 = true ∧
    promRaw Arith.ieee754 0 nackSketch 1 = 0 ∧ (reset Arith.ieee754 0 nackSketch).1 = false := by
  refine ⟨by decide, ?_, ?_, ?_⟩
  · rw [(reset_flag_iff Arith.ieee754 0 datasheetSketch).1]
    intro i h1 h2
    interval_cases i <;> decide
  · exact (reset_flag_iff Arith.ieee754 0 nackSketch).2.2.1 1 (by decide) (by decide)
  · have h := (reset_flag_iff Arith.ieee754 0 nackSketch).1
    have h1 : promRaw Arith.ieee754 0 nackSketch 1 = 0 := by decide
    cases hr : (reset Arith.ieee754 0 nackSketch).1
    · rfl
    · exact absurd h1 (h.1 hr 1 (by decide) (by decide))

/-- Counterexample to C4 as stated: after `reset(0)` on the datasheet sensor
the raw value of register 6 is 28312 and `C[6]` is `28312 * 2^-23`, which is
not `1.1920928955e-7 * 28312`. -/
theorem reset_table_counterexample :
    promRaw Arith.ieee754 0 datasheetSketch 6 = 28312 ∧
    (reset Arith.ieee754 0 datasheetSketch).2.dev.C 6 = 28312 / 8388608 ∧
    (reset Arith.ieee754 0 datasheetSketch).2.dev.C 6 ≠ 1.1920928955e-7 * 28312 := by
  have r : promRaw Arith.ieee754 0 datasheetSketch 6 = 28312 := by decide
  have h : (reset Arith.ieee754 0 datasheetSketch).2.dev.C 6 = 28312 / 8388608 := by
    rw [reset_C_ieee754 0 datasheetSketch 6 (by decide), r]
    norm_num
  refine ⟨r, h, ?_⟩
  rw [h]
  norm_num

/-- C4 (as amended): after `reset(variant)`, whatever flag it returns, every
entry `C[i]`, i in 0..6, is the scale factor of the variant's profile times the
raw value `readProm` returned for register `i`, where the last scale factor is
`2^-23`, the binary32 value in which the literal `1.1920928955e-7` is stored
(the other factors are binary32 numbers, and every product is exact in
binary32); the raw value was read with the one command byte 0xA0 + 2 * i and,
when the command is acknowledged and two bytes in 0..255 are delivered, it is
`first * 256 + second`. -/
theorem reset_table (variant : Nat) (hv : variant < 256) (s : Sketch) (i : Nat) (hi : i < 7) :
    (reset Arith.ieee754 variant s).2.dev.C i =
      (if variant = 1
        then [1, 65536, 131072, 7.8125e-3, 1.5625e-2, 256, 1 / 8388608]
        else [1, 32768, 65536, 3.90625e-3, 7.8125e-3, 256, 1 / 8388608]).getD i 0
        * (promRaw Arith.ieee754 variant s i : ℚ) ∧
    Arith.ieee754.single (Arith.ieee754.double 1.1920928955E-7) = 1 / 8388608 ∧
    writes (readProm i (resetLoop Arith.ieee754 variant s i).2).2.hw.trace =
      writes (resetLoop Arith.ieee754 variant s i).2.hw.trace ++ [0xA0 + 2 * i] ∧
    (∀ (t : Sketch) (first second : Int),
      (command (0xA0 + 2 * i) t).1 = 0 →
      2 ≤ t.hw.requestFromResult ((command (0xA0 + 2 * i) t).2.hw.trace ++
        [.requestFrom t.dev._config.wire (t.dev._config.i2c_address % 256) 2]) →
      first = t.hw.readResult ((command (0xA0 + 2 * i) t).2.hw.trace ++
        [.requestFrom t.dev._config.wire (t.dev._config.i2c_address % 256) 2,
         .read t.dev._config.wire]) →
      second = t.hw.readResult ((command (0xA0 + 2 * i) t).2.hw.trace ++
        [.requestFrom t.dev._config.wire (t.dev._config.i2c_address % 256) 2,
         .read t.dev._config.wire, .read t.dev._config.wire]) →
      0 ≤ first ∧ first ≤ 255 → 0 ≤ second ∧ second ≤ 255 →
      ((readProm i t).1 : Int) = first * 256 + second) := by
  refine ⟨?_, ieee754_literal_C6, readProm_writes i (by omega) _, ?_⟩
  · rw [reset_C_ieee754 variant s i hi, Nat.mod_eq_of_lt hv]
  · intro t first second hr ha e1 e2 r1 r2
    have e : (160 + 2 * i) % 256 = 0xA0 + 2 * i := by omega
    simp only [command_eq, e, after, commandEvents, requestEvent, List.append_assoc,
      List.cons_append, List.nil_append] at hr ha e1 e2
    rw [readProm_ok i (by omega) t
      (by simpa only [commandEvents, List.append_assoc] using hr)
      (by simpa only [commandEvents, requestEvent, List.append_assoc, List.cons_append,
        List.nil_append] using ha)]
    simp only [commandEvents, requestEvent, List.append_assoc, List.cons_append,
      List.nil_append]
    rw [← e1, ← e2]
    exact promValue_bytes first second r1 r2

/-- Witness for C4: the table after `reset(0)` on the datasheet sensor holds
32768 * 40127 at index 1 and 28312 * 2^-23 at index 6, and after `reset(1)` it
holds 65536 * 40127 at index 1. -/
theorem reset_table_witness :
    (reset Arith.ieee754 0 datasheetSketch).2.dev.C 1 = 32768 * 40127 ∧
    (reset Arith.ieee754 0 datasheetSketch).2.dev.C 6 = 28312 / 8388608 ∧
    (reset Arith.ieee754 1 datasheetSketch).2.dev.C 1 = 65536 * 40127 := by
  have h0 := (reset_table 0 (by decide) datasheetSketch 1 (by decide)).1
  have h6 := (reset_table 0 (by decide) datasheetSketch 6 (by decide)).1
  have h1 := (reset_table 1 (by decide) datasheetSketch 1 (by decide)).1
  have r0 : promRaw Arith.ieee754 0 datasheetSketch 1 = 40127 := by decide
  have r6 : promRaw Arith.ieee754 0 datasheetSketch 6 = 28312 := by decide
  have r1 : promRaw Arith.ieee754 1 datasheetSketch 1 = 40127 := by decide
  rw [r0] at h0
  rw [r6] at h6
  rw [r1] at h1
  exact ⟨by rw [h0]; norm_num, by rw [h6]; norm_num, by rw [h1]; norm_num⟩

/-- Counterexample to C5 as stated: on a bus that fails only the first
transaction, the reset command yields the result code 2, and `reset` goes on
to dispatch the seven PROM-read commands and returns true. -/
theorem reset_abort_counterexample :
    (command MS56XX_CMD_RESET glitchSketch).1 = 2 ∧
    writes (reset Arith.ieee754 0 glitchSketch).2.hw.trace =
      [0x1E, 0xA0, 0xA2, 0xA4, 0xA6, 0xA8, 0xAA, 0xAC] ∧
    (reset Arith.ieee754 0 glitchSketch).1 = true := by
  decide

/-- C5 (as amended): `reset` has no early exit.  For every bus behaviour it
dispatches the reset command 0x1E and then the seven PROM-read commands 0xA0,
0xA2, ..., 0xAC, whatever the result codes; and when the PROM-read command of
one of the registers 1..6 yields a nonzero result code, `reset` returns
false. -/
theorem reset_no_early_exit (A : Arith) (variant : Nat) (s : Sketch) :
    writes (reset A variant s).2.hw.trace =
      writes s.hw.trace ++ [0x1E, 0xA0, 0xA2, 0xA4, 0xA6, 0xA8, 0xAA, 0xAC] ∧
    (∀ i, 1 ≤ i → i ≤ 6 → promResult A variant s i ≠ 0 → (reset A variant s).1 = false) := by
  refine ⟨?_, ?_⟩
  · rw [reset_eq_loop, resetLoop_writes A variant s 7 (le_refl 7)]
    have e : (List.range 7).map (fun i => 0xA0 + 2 * i) =
        [0xA0, 0xA2, 0xA4, 0xA6, 0xA8, 0xAA, 0xAC] := by decide
    rw [e]
  · intro i h1 h2 h
    have h0 := promRaw_of_result A variant s i (by omega) h
    cases hr : (reset A variant s).1
    · rfl
    · rw [reset_eq_loop] at hr
      exact absurd h0 ((resetLoop_flag A variant s 7).1 hr i h1 (by omega))

/-- Witness for C5 (as amended): on a bus that acknowledges nothing all eight
commands are dispatched and `reset` returns false. -/
theorem reset_no_early_exit_witness :
    writes (reset Arith.ieee754 0 nackSketch).2.hw.trace =
      [0x1E, 0xA0, 0xA2, 0xA4, 0xA6, 0xA8, 0xAA, 0xAC] ∧
    (reset Arith.ieee754 0 nackSketch).1 = false :=
  ⟨(reset_no_early_exit Arith.ieee754 0 nackSketch).1,
    (reset_no_early_exit Arith.ieee754 0 nackSketch).2 1 (by decide) (by decide) (by decide)⟩

/-- C6: when the probe transaction of `begin` ends with a nonzero result,
`begin` returns false, the driver object (stored configuration, calibration
table, result code, timestamp) is unchanged, the clock is unchanged, and the
only bus calls made are the two of the probe. -/
theorem begin_probe_not_acknowledged (A : Arith) (config : MS56XX_Config) (s : Sketch)
    (h : s.hw.endTransmissionResult (s.hw.trace ++
      [.beginTransmission config.wire config.i2c_address,
       .endTransmission config.wire]) ≠ 0) :
    (begin A config s).1 = false ∧
    (begin A config s).2.dev = s.dev ∧
    (begin A config s).2.hw.trace = s.hw.trace ++
      [.beginTransmission config.wire config.i2c_address, .endTransmission config.wire] ∧
    (begin A config s).2.hw.clock = s.hw.clock := by
  simp only [begin, TwoWire.beginTransmission, TwoWire.endTransmission, Board.emit,
    List.append_assoc, List.cons_append, List.nil_append]
  simp [h]

/-- Witness for C6: `begin` on a bus where nothing is acknowledged. -/
theorem begin_probe_not_acknowledged_witness :
    (begin Arith.ieee754 sampleConfig nackSketch).1 = false ∧
    (begin Arith.ieee754 sampleConfig nackSketch).2.dev = freshDevice ∧
    (begin Arith.ieee754 sampleConfig nackSketch).2.hw.trace =
      [.beginTransmission 0 0x76, .endTransmission 0] :=
  have h := begin_probe_not_acknowledged Arith.ieee754 sampleConfig nackSketch
    (by decide)
  ⟨h.1, h.2.1, h.2.2.1⟩

/-- C7: the datasheet's worked example, in exact rational arithmetic.  With a
table that holds the MS5611 scale profile of `initConstants(0)` times the PROM
words 40127, 36924, 23317, 23282, 33464, 28312 at the indices 1..6, all four
sub-steps of `read` succeeding and the ADC reads giving D1 = 9085466 and
D2 = 8569150, `read` returns true and stores the pressure 100009 and a
temperature in [20.07, 20.08). -/
theorem read_datasheet_example (log : ℚ → ℚ) (data : MS56XX_Data) (outside_temperature : ℚ)
    (s : Sketch)
    (hC : ∀ i, 1 ≤ i → i ≤ 6 → s.dev.C i =
      (initConstants Arith.rational 0 s).dev.C i *
        ([0, 40127, 36924, 23317, 23282, 33464, 28312] : List ℚ).getD i 0)
    (h1 : (afterConvertD1 s).dev.runTimeVariables.result = 0)
    (h2 : (afterReadD1 s).dev.runTimeVariables.result = 0)
    (hD1 : (readADC (afterConvertD1 s)).1 = 9085466)
    (h3 : (afterConvertD2 s).dev.runTimeVariables.result = 0)
    (h4 : (afterReadD2 s).dev.runTimeVariables.result = 0)
    (hD2 : (readADC (afterConvertD2 s)).1 = 8569150) :
    (read Arith.rational log data outside_temperature s).1 = true ∧
    (read Arith.rational log data outside_temperature s).2.1.pressure = 100009 ∧
    20.07 ≤ (read Arith.rational log data outside_temperature s).2.1.temperature ∧
    (read Arith.rational log data outside_temperature s).2.1.temperature < 20.08 := by
  obtain ⟨i1, i2, i3, i4, i5, i6⟩ := initConstants_zero_C s
  have c1 := hC 1 (by decide) (by decide)
  have c2 := hC 2 (by decide) (by decide)
  have c3 := hC 3 (by decide) (by decide)
  have c4 := hC 4 (by decide) (by decide)
  have c5 := hC 5 (by decide) (by decide)
  have c6 := hC 6 (by decide) (by decide)
  rw [i1] at c1; rw [i2] at c2; rw [i3] at c3; rw [i4] at c4; rw [i5] at c5; rw [i6] at c6
  simp only [List.getD_cons_succ, List.getD_cons_zero] at c1 c2 c3 c4 c5 c6
  have hc := datasheet_compensate s.dev.C c1 c2 c3 c4 c5 c6
  obtain ⟨r1, r2, r3, _⟩ := read_success Arith.rational log data outside_temperature s h1 h2 h3 h4
  simp only [rational_single, rational_double] at r2 r3
  rw [hD2, hc] at r2 r3
  rw [hD1] at r3
  refine ⟨r1, ?_, ?_, ?_⟩
  · rw [r3]
    have hpos : (0 : ℚ) ≤ (((9085466 : ℕ) : ℚ) * (168332420619 / 128) * 4.76837158205E-7
        - 77449011751 / 32) * 3.051757813E-5 := by norm_num
    simp only [toInt32, if_pos hpos]
    rw [Int.floor_eq_iff]
    constructor <;> norm_num
  · rw [r2]; norm_num
  · rw [r2]; norm_num

/-- Witness for C7: the driver calibrated by `reset(0)` on the simulated
datasheet sensor reads the pressure 100009. -/
theorem read_datasheet_example_witness :
    (read Arith.rational noLog priorData 15 calibratedSketch).1 = true ∧
    (read Arith.rational noLog priorData 15 calibratedSketch).2.1.pressure = 100009 := by
  have hC : ∀ i, 1 ≤ i → i ≤ 6 → calibratedSketch.dev.C i =
      (initConstants Arith.rational 0 calibratedSketch).dev.C i *
        ([0, 40127, 36924, 23317, 23282, 33464, 28312] : List ℚ).getD i 0 := by
    intro i hi1 hi2
    have e : calibratedSketch.dev.C i =
        (resetLoop Arith.rational 0 datasheetSketch 7).2.dev.C i := rfl
    rw [e, resetLoop_C Arith.rational 0 datasheetSketch 7 (le_refl 7) i, if_pos (by omega),
      resetStart_C Arith.rational 0 datasheetSketch i (by omega)]
    simp only [rational_single, rational_double]
    obtain ⟨i1, i2, i3, i4, i5, i6⟩ := initConstants_zero_C calibratedSketch
    interval_cases i
    · rw [i1, show promRaw Arith.rational 0 datasheetSketch 1 = 40127 by decide]; norm_num
    · rw [i2, show promRaw Arith.rational 0 datasheetSketch 2 = 36924 by decide]; norm_num
    · rw [i3, show promRaw Arith.rational 0 datasheetSketch 3 = 23317 by decide]; norm_num
    · rw [i4, show promRaw Arith.rational 0 datasheetSketch 4 = 23282 by decide]; norm_num
    · rw [i5, show promRaw Arith.rational 0 datasheetSketch 5 = 33464 by decide]; norm_num
    · rw [i6, show promRaw Arith.rational 0 datasheetSketch 6 = 28312 by decide]; norm_num
  have h := read_datasheet_example noLog priorData 15 calibratedSketch hC
    (by rw [afterConvertD1_eq]; decide)
    (by rw [afterReadD1, afterConvertD1_eq]; decide)
    (by rw [afterConvertD1_eq]; decide)
    (by rw [afterConvertD2_eq, afterReadD1, afterConvertD1_eq]; decide)
    (by rw [afterReadD2, afterConvertD2_eq, afterReadD1, afterConvertD1_eq]; decide)
    (by rw [afterConvertD2_eq, afterReadD1, afterConvertD1_eq]; decide)
  exact ⟨h.1, h.2.1⟩

/-- Counterexample to C8 as stated: after a `reset(0)` that returned true (PROM
word 6 is 300), with `D2 = 8566783`, the rational
`2000 + (D2 - C[5]) * C[6]` is below 2000, while the `float` variable
`new_temperature` that the code tests is exactly 2000: the second-order block
is not entered.  The offset and sensitivity that come out at
`new_temperature` exactly 2000 are not `C[2]` and `C[1]`. -/
theorem compensate_boundary_counterexample :
    (reset Arith.ieee754 0 nearSketch).1 = true ∧
    2000 + (((8566783 : ℕ) : ℚ) - nearTable 5) * nearTable 6 < 2000 ∧
    (firstOrder Arith.ieee754 nearTable 8566783).2.1 = 2000 ∧
    compensate Arith.ieee754 nearTable 8566783 = (2000, 2419851008, 1314881408) ∧
    (compensate Arith.ieee754 nearTable 8566783).2.1 ≠ nearTable 2 ∧
    (compensate Arith.ieee754 nearTable 8566783).2.2 ≠ nearTable 1 := by
  obtain ⟨hr, c1, c2, c3, c4, c5, c6⟩ := nearTable_values
  have hn : ¬ ((2000 : ℚ) < 2000) := lt_irrefl _
  have hc : compensate Arith.ieee754 nearTable 8566783 = (2000, 2419851008, 1314881408) := by
    rw [compensate_of_firstOrder _ _ _ _ _ _ _ nearTable_firstOrder, if_neg hn]
  refine ⟨hr, ?_, ?_, hc, ?_, ?_⟩
  · rw [c5, c6]; norm_num
  · rw [nearTable_firstOrder]
  · rw [hc, c2]; norm_num
  · rw [hc, c1]; norm_num

/-- C8 (as amended): with `dT`, `new_temperature`, `offset`, `sens` the `float`
variables of the code before the second-order block (`firstOrder`): the
outputs are these values with `T2`, `offset2`, `sens2` subtracted when
`new_temperature < 2000`, and these values themselves otherwise; `offset2` and
`sens2` are the `float` values of `2.5 t` and `1.25 t` with
`t = (new_temperature - 2000)^2`, to which `7 u` and `5.5 u` with
`u = (new_temperature + 1500)^2` are added exactly when
`new_temperature < -1500`; this holds in every arithmetic.  In IEEE 754
arithmetic, at `new_temperature` exactly -1500, `offset2 = 2.5 * (-3500)^2` and
`sens2 = 1.25 * (-3500)^2`; at exactly 2000 the outputs are 2000 (stored as
20.00 degrees) and the first-order offset and sensitivity, which are `C[2]`
and `C[1]` when `dT = 0` (the table entries being `float` values). -/
theorem compensate_branches (A : Arith) (C : Nat → ℚ) (D2 : Nat) :
    ((firstOrder A C D2).2.1 < 2000 →
      compensate A C D2 =
        (A.single ((firstOrder A C D2).2.1
            - (secondOrder A (firstOrder A C D2).1 (firstOrder A C D2).2.1).1),
          A.single ((firstOrder A C D2).2.2.1
            - (secondOrder A (firstOrder A C D2).1 (firstOrder A C D2).2.1).2.1),
          A.single ((firstOrder A C D2).2.2.2
            - (secondOrder A (firstOrder A C D2).1 (firstOrder A C D2).2.1).2.2))) ∧
    (¬ (firstOrder A C D2).2.1 < 2000 →
      compensate A C D2 =
        ((firstOrder A C D2).2.1, (firstOrder A C D2).2.2.1, (firstOrder A C D2).2.2.2)) ∧
    (∀ dT new_temperature : ℚ,
      (secondOrder A dT new_temperature).1 =
        A.single (A.double (A.single (dT * dT) * A.double 4.6566128731E-10)) ∧
      (new_temperature < -1500 →
        (secondOrder A dT new_temperature).2.1 =
          A.single (A.single (A.double (A.double 2.5 *
              A.single (A.single (new_temperature - 2000) * A.single (new_temperature - 2000))))
            + A.single (7 *
              A.single (A.single (new_temperature + 1500) * A.single (new_temperature + 1500))))
        ∧ (secondOrder A dT new_temperature).2.2 =
          A.single (A.double (A.single (A.double (A.double 1.25 *
              A.single (A.single (new_temperature - 2000) * A.single (new_temperature - 2000))))
            + A.double (A.double 5.5 *
              A.single (A.single (new_temperature + 1500)
                * A.single (new_temperature + 1500)))))) ∧
      (¬ new_temperature < -1500 →
        (secondOrder A dT new_temperature).2.1 =
          A.single (A.double (A.double 2.5 *
            A.single (A.single (new_temperature - 2000) * A.single (new_temperature - 2000))))
        ∧ (secondOrder A dT new_temperature).2.2 =
          A.single (A.double (A.double 1.25 *
            A.single (A.single (new_temperature - 2000)
              * A.single (new_temperature - 2000)))))) ∧
    (∀ dT : ℚ,
      (secondOrder Arith.ieee754 dT (-1500)).2.1 = 2.5 * (-3500) ^ 2 ∧
      (secondOrder Arith.ieee754 dT (-1500)).2.2 = 1.25 * (-3500) ^ 2) ∧
    ((firstOrder Arith.ieee754 C D2).2.1 = 2000 →
      (compensate Arith.ieee754 C D2).1 = 2000 ∧
      Arith.ieee754.single (Arith.ieee754.double
        ((compensate Arith.ieee754 C D2).1 * Arith.ieee754.double 0.01)) = 20 ∧
      (compensate Arith.ieee754 C D2).2.1 = (firstOrder Arith.ieee754 C D2).2.2.1 ∧
      (compensate Arith.ieee754 C D2).2.2 = (firstOrder Arith.ieee754 C D2).2.2.2 ∧
      ((firstOrder Arith.ieee754 C D2).1 = 0 → binary32 (C 2) = C 2 → binary32 (C 1) = C 1 →
        (compensate Arith.ieee754 C D2).2.1 = C 2 ∧
        (compensate Arith.ieee754 C D2).2.2 = C 1)) := by
  have hc : ∀ B : Arith, compensate B C D2 =
      if (firstOrder B C D2).2.1 < 2000 then
        (B.single ((firstOrder B C D2).2.1
            - (secondOrder B (firstOrder B C D2).1 (firstOrder B C D2).2.1).1),
          B.single ((firstOrder B C D2).2.2.1
            - (secondOrder B (firstOrder B C D2).1 (firstOrder B C D2).2.1).2.1),
          B.single ((firstOrder B C D2).2.2.2
            - (secondOrder B (firstOrder B C D2).1 (firstOrder B C D2).2.1).2.2))
      else ((firstOrder B C D2).2.1, (firstOrder B C D2).2.2.1, (firstOrder B C D2).2.2.2) :=
    fun B => compensate_of_firstOrder B C D2 _ _ _ _ rfl
  refine ⟨fun h => by rw [hc A, if_pos h], fun h => by rw [hc A, if_neg h], ?_, ?_, ?_⟩
  · intro dT new_temperature
    refine ⟨?_, ?_, ?_⟩
    · simp only [secondOrder]; split_ifs <;> rfl
    · intro h; simp only [secondOrder, if_pos h, and_self]
    · intro h; simp only [secondOrder, if_neg h, and_self]
  · intro dT
    obtain ⟨h1, h2⟩ := secondOrder_at_boundary dT
    rw [h1, h2]
    constructor <;> norm_num
  · intro h
    have hn : ¬ (firstOrder Arith.ieee754 C D2).2.1 < 2000 := by rw [h]; exact lt_irrefl _
    rw [hc Arith.ieee754, if_neg hn]
    refine ⟨h, ?_, rfl, rfl, ?_⟩
    · show Arith.ieee754.single (Arith.ieee754.double
        ((firstOrder Arith.ieee754 C D2).2.1 * Arith.ieee754.double 0.01)) = 20
      rw [h]
      exact temperature_at_2000
    · intro hd h2 h1
      have z : binary32 (0 : ℚ) = 0 := roundBinary_zero 24 (-126)
      have hd0 : Arith.ieee754.single (Arith.ieee754.single (D2 : ℚ) - C 5) = 0 := hd
      constructor
      · show Arith.ieee754.single (C 2 + Arith.ieee754.single
          (Arith.ieee754.single (Arith.ieee754.single (D2 : ℚ) - C 5) * C 4)) = C 2
        rw [hd0]
        simp only [ieee754_single, zero_mul, z, add_zero, h2]
      · show Arith.ieee754.single (C 1 + Arith.ieee754.single
          (Arith.ieee754.single (Arith.ieee754.single (D2 : ℚ) - C 5) * C 3)) = C 1
        rw [hd0]
        simp only [ieee754_single, zero_mul, z, add_zero, h1]

/-- Witness for C8: after `reset(0)` on a sensor whose PROM word 6 is 56000,
with `D2 = 8042496`, `new_temperature` is exactly -1500: the second-order
block is entered, without the additional terms, and the outputs are -1628
(that is -1500 - 128), 2293863168 and 1251815808. -/
theorem compensate_branches_witness :
    (firstOrder Arith.ieee754 coldTable 8042496).2.1 = -1500 ∧
    (secondOrder Arith.ieee754 (-524288) (-1500)).2.1 = 30625000 ∧
    compensate Arith.ieee754 coldTable 8042496 = (-1628, 2293863168, 1251815808) := by
  have hf : (firstOrder Arith.ieee754 coldTable 8042496).2.1 = -1500 := by
    rw [coldTable_firstOrder]
  have h := (compensate_branches Arith.ieee754 coldTable 8042496).1
    (by rw [hf]; norm_num)
  have hb := ((compensate_branches Arith.ieee754 coldTable 8042496).2.2.2.1 (-524288)).1
  refine ⟨hf, ?_, coldTable_compensate⟩
  rw [hb]; norm_num

/-- C9: for every base command byte `b` whose five conversion commands are
bytes (`b ≤ 247`; `read` passes 0x40 and 0x50) and every 8-bit rank `r`, with
`index = min (max r 8) 12 - 8`: the index is in 0..4, inside the settle-time
table; `convert b r` makes exactly one command transaction, whose byte is
`b + 2 * index`, records its result code, and lets exactly
`[600, 1200, 2300, 4600, 9100][index]` microseconds pass; ranks below 8
behave as 8, ranks above 12 as 12, and the delay is monotone in the rank. -/
theorem convert_contract (b r : Nat) (hb : b ≤ 247) (hr : r < 256) (s : Sketch) :
    min (max r 8) 12 - 8 ≤ 4 ∧ min (max r 8) 12 - 8 < del.length ∧
    (convert b r s).hw.trace = s.hw.trace ++
      [.beginTransmission s.dev._config.wire s.dev._config.i2c_address,
       .write s.dev._config.wire (b + 2 * (min (max r 8) 12 - 8)),
       .endTransmission s.dev._config.wire] ∧
    (convert b r s).dev.runTimeVariables.result =
      s.hw.endTransmissionResult (convert b r s).hw.trace ∧
    (convert b r s).hw.clock =
      s.hw.clock + [600, 1200, 2300, 4600, 9100].getD (min (max r 8) 12 - 8) 0 ∧
    (r < 8 → convert b r s = convert b 8 s) ∧
    (12 < r → convert b r s = convert b 12 s) ∧
    (∀ r2, r ≤ r2 → r2 < 256 → (convert b r s).hw.clock ≤ (convert b r2 s).hw.clock) := by
  have hi := settleIndex_eq r hr
  have hle : min (max r 8) 12 - 8 ≤ 4 := by omega
  have key : ∀ q, q < 256 → convert b q s =
      after s (commandEvents s.dev._config (b + 2 * (min (max q 8) 12 - 8)))
        (s.hw.endTransmissionResult (s.hw.trace ++
          commandEvents s.dev._config (b + 2 * (min (max q 8) 12 - 8))))
        (del.getD (min (max q 8) 12 - 8) 0) := by
    intro q hq
    have e : (b % 256 + settleIndex q * 2 % 256) % 256
        = b + 2 * (min (max q 8) 12 - 8) := by
      rw [settleIndex_eq q hq]; omega
    rw [convert_eq, e, settleIndex_eq q hq]
  refine ⟨hle, by simp only [del, List.length]; omega, ?_, ?_, ?_, ?_, ?_, ?_⟩
  · rw [key r hr]; simp [after, commandEvents]
  · rw [key r hr]; simp [after, commandEvents]
  · rw [key r hr]; simp [after, del]
  · intro h
    rw [key r hr, key 8 (by omega)]
    have : min (max r 8) 12 = min (max 8 8) 12 := by omega
    rw [this]
  · intro h
    rw [key r hr, key 12 (by omega)]
    have : min (max r 8) 12 = min (max 12 8) 12 := by omega
    rw [this]
  · intro r2 h1 h2
    rw [key r hr, key r2 h2]
    simp only [after]
    have h3 : min (max r2 8) 12 - 8 ≤ 4 := by omega
    have h4 : min (max r 8) 12 - 8 ≤ min (max r2 8) 12 - 8 := by omega
    generalize min (max r 8) 12 - 8 = i at *
    generalize min (max r2 8) 12 - 8 = j at *
    interval_cases j <;> interval_cases i <;> simp [del]

/-- Witness for C9: the pressure conversion at rank 10 and the temperature
conversion at rank 200 (which behaves as rank 12) on a fresh device. -/
theorem convert_contract_witness :
    (convert 0x40 10 nackSketch).hw.trace =
      [.beginTransmission 0 0x77, .write 0 0x44, .endTransmission 0] ∧
    (convert 0x40 10 nackSketch).hw.clock = 2300 ∧
    (convert 0x50 200 nackSketch).hw.trace =
      [.beginTransmission 0 0x77, .write 0 0x58, .endTransmission 0] ∧
    (convert 0x50 200 nackSketch).hw.clock = 9100 := by
  have h := convert_contract 0x40 10 (by decide) (by decide) nackSketch
  have g := convert_contract 0x50 200 (by decide) (by decide) nackSketch
  refine ⟨?_, ?_, ?_, ?_⟩
  · rw [h.2.2.1]; decide
  · rw [h.2.2.2.2.1]; decide
  · rw [g.2.2.1]; decide
  · rw [g.2.2.2.2.1]; decide

/-- C10: `readADC` always dispatches the command 0x00 and records its result.
If the result is zero and the request for 3 bytes reports at least 3, it reads
three bytes and, when each is in 0..255, returns
`byte0 * 65536 + byte1 * 256 + byte2`, a value below 2^24.  If the result is
nonzero it returns 0 and makes no further bus call.  If fewer than 3 bytes are
available it returns 0 after the request, without a `read`. -/
theorem readADC_contract (s : Sketch) :
    (command 0x00 s).2.hw.trace = s.hw.trace ++
      [.beginTransmission s.dev._config.wire s.dev._config.i2c_address,
       .write s.dev._config.wire 0x00, .endTransmission s.dev._config.wire] ∧
    (readADC s).2.dev.runTimeVariables.result = (command 0x00 s).1 ∧
    ((command 0x00 s).1 ≠ 0 →
      (readADC s).1 = 0 ∧ (readADC s).2.hw.trace = (command 0x00 s).2.hw.trace) ∧
    ((command 0x00 s).1 = 0 →
      s.hw.requestFromResult ((command 0x00 s).2.hw.trace ++
        [.requestFrom s.dev._config.wire (s.dev._config.i2c_address % 256) 3]) < 3 →
      (readADC s).1 = 0 ∧
      (readADC s).2.hw.trace = (command 0x00 s).2.hw.trace ++
        [.requestFrom s.dev._config.wire (s.dev._config.i2c_address % 256) 3]) ∧
    ((command 0x00 s).1 = 0 →
      3 ≤ s.hw.requestFromResult ((command 0x00 s).2.hw.trace ++
        [.requestFrom s.dev._config.wire (s.dev._config.i2c_address % 256) 3]) →
      (readADC s).2.hw.trace = (command 0x00 s).2.hw.trace ++
        [.requestFrom s.dev._config.wire (s.dev._config.i2c_address % 256) 3,
         .read s.dev._config.wire, .read s.dev._config.wire, .read s.dev._config.wire] ∧
      ∀ byte0 byte1 byte2 : Int,
        byte0 = s.hw.readResult ((command 0x00 s).2.hw.trace ++
          [.requestFrom s.dev._config.wire (s.dev._config.i2c_address % 256) 3,
           .read s.dev._config.wire]) →
        byte1 = s.hw.readResult ((command 0x00 s).2.hw.trace ++
          [.requestFrom s.dev._config.wire (s.dev._config.i2c_address % 256) 3,
           .read s.dev._config.wire, .read s.dev._config.wire]) →
        byte2 = s.hw.readResult ((command 0x00 s).2.hw.trace ++
          [.requestFrom s.dev._config.wire (s.dev._config.i2c_address % 256) 3,
           .read s.dev._config.wire, .read s.dev._config.wire, .read s.dev._config.wire]) →
        0 ≤ byte0 ∧ byte0 ≤ 255 → 0 ≤ byte1 ∧ byte1 ≤ 255 → 0 ≤ byte2 ∧ byte2 ≤ 255 →
        ((readADC s).1 : Int) = byte0 * 65536 + byte1 * 256 + byte2 ∧
        (readADC s).1 < 2 ^ 24) := by
  have hc : command 0x00 s = (s.hw.endTransmissionResult (s.hw.trace ++
      commandEvents s.dev._config 0), after s (commandEvents s.dev._config 0)
      (s.hw.endTransmissionResult (s.hw.trace ++ commandEvents s.dev._config 0)) 0) := by
    rw [command_eq]
  rw [hc]
  by_cases h : s.hw.endTransmissionResult (s.hw.trace ++ commandEvents s.dev._config 0) = 0
  · by_cases ha : 3 ≤ s.hw.requestFromResult (s.hw.trace ++
        commandEvents s.dev._config 0 ++ [requestEvent s.dev._config 3])
    · rw [readADC_ok s h ha]
      refine ⟨by simp [after, commandEvents], by simp [after, h],
        fun h2 => absurd h h2, ?_, ?_⟩
      · intro _ h3
        simp only [after, commandEvents, requestEvent, List.append_assoc] at h3 ha
        omega
      · intro _ _
        refine ⟨by simp [after, commandEvents, requestEvent], ?_⟩
        intro byte0 byte1 byte2 e0 e1 e2 r0 r1 r2
        simp only [after, commandEvents, requestEvent, List.append_assoc,
          List.cons_append, List.nil_append] at e0 e1 e2 ⊢
        rw [← e0, ← e1, ← e2]
        have := adcValue_bytes byte0 byte1 byte2 r0 r1 r2
        refine ⟨this, ?_⟩
        have : ((adcValue byte0 byte1 byte2 : Nat) : Int) < 2 ^ 24 := by omega
        exact_mod_cast this
    · rw [readADC_short s h (by omega)]
      refine ⟨by simp [after, commandEvents], by simp [after, h],
        fun h2 => absurd h h2, ?_, ?_⟩
      · intro _ _
        simp [after, commandEvents, requestEvent]
      · intro _ h3
        simp only [after, commandEvents, requestEvent, List.append_assoc] at h3 ha
        omega
  · rw [readADC_fail s h]
    refine ⟨by simp [after, commandEvents], by simp [after], fun _ => by simp [after],
      fun h2 => absurd h2 h, fun h2 => absurd h2 h⟩

/-- Witness for C10: on a bus that acknowledges and delivers the bytes 1, 1, 1
`readADC` returns 65793; on one that does not acknowledge it returns 0 after
the three calls of the command; on one that delivers nothing it returns 0 after
the request. -/
theorem readADC_contract_witness :
    (readADC onesSketch).1 = 65793 ∧
    ((readADC nackSketch).1 = 0 ∧
      (readADC nackSketch).2.hw.trace =
        [.beginTransmission 0 0x77, .write 0 0, .endTransmission 0]) ∧
    ((readADC muteSketch).1 = 0 ∧
      (readADC muteSketch).2.hw.trace =
        [.beginTransmission 0 0x77, .write 0 0, .endTransmission 0,
         .requestFrom 0 0x77 3]) := by
  have h1 := (readADC_contract onesSketch).2.2.2.2
    (by decide) (by decide)
  have h2 := (readADC_contract nackSketch).2.2.1 (by decide)
  have h3 := (readADC_contract muteSketch).2.2.2.1
    (by decide) (by decide)
  refine ⟨?_, ⟨h2.1, ?_⟩, ⟨h3.1, ?_⟩⟩
  · have := (h1.2 1 1 1 (by decide) (by decide) (by decide) (by decide) (by decide)
      (by decide)).1
    omega
  · rw [h2.2]; decide
  · rw [h3.2]; decide

end MS56XX
